import Mathlib

/-!
Verification development for the Emoji-RTS simulation core (src/js).

The JavaScript sources are shallowly embedded as pure Lean functions over an
explicit `GameState`.  Conventions used throughout:

* JS numbers are modelled as `ℚ` (exact arithmetic; the sources only ever
  produce finite values on the paths modelled here) and resource stockpiles /
  food counts as `Int`, matching their integer-only usage.
* JS object identity is modelled by an allocation address (`addr : Nat`) drawn
  from `GameState.allocCounter`; the entity arrays `units`, `buildings`,
  `constructions`, `resources` are lists of addresses into per-kind pools that
  are never shrunk (a removed entity's object survives, exactly like a JS
  object that is only dropped from an array).  This captures the source's
  aliasing: a construction-site object is stored in both `constructions` and
  `buildings` (main.js line 1875/1876), and `completeConstruction` later
  rewrites the `id` field of a freshly created building object.
* DOM elements are modelled by an element id (`Nat`, from `elemCounter`)
  together with a per-entity `elemConnected` flag standing for
  `element.isConnected`; `removeChild` becomes `elemConnected := false`.
  `a.targetElement === b.element` becomes equality of `Option Nat`.
* `setTimeout` callbacks are modelled as explicit pending entries:
  a unit's harvest timer is `harvestTimer : Option Nat` (the resource's
  address), and the 500ms deferred removal of a depleted mine is recorded in
  `pendingMineRemovals` and executed by `runPendingMineRemoval`.
* `playerFactionKey` is identified with `p1FactionKey` and
  `opponentFactionKey` with `p2FactionKey`: main.js lines 145-153 always
  assign them together.
* Rendering-only statements (class lists, style updates, progress-bar widths,
  `updateHpBar`, event listeners, messages) are omitted: they do not touch
  simulation state.
-/

namespace EmojiRTS

/-- A 2D point, as the JS `{x, y}` objects. -/
structure Pt where
  x : ℚ
  y : ℚ
deriving DecidableEq, Repr

/-- Axis-aligned bounding box, as the JS box objects. -/
structure Box where
  xMin : ℚ
  yMin : ℚ
  xMax : ℚ
  yMax : ℚ
  width : ℚ
  height : ℚ
  centerX : ℚ
  centerY : ℚ
deriving DecidableEq, Repr

/-- Faction keys; `badKey` stands for any string absent from `FACTION_DATA`. -/
inductive FKey where
  | human
  | zombie
  | badKey (n : Nat)
deriving DecidableEq, Repr

/-- Game modes ('human_vs_ai' / 'ai_vs_ai'). -/
inductive GMode where
  | human_vs_ai
  | ai_vs_ai
deriving DecidableEq, Repr

/-- Unit type names; `badU` stands for any string absent from the stat table. -/
inductive UTy where
  | worker
  | soldier
  | archer
  | badU (n : Nat)
deriving DecidableEq, Repr

/-- Building type names; `badB` is any string absent from the stat table. -/
inductive BTy where
  | base
  | farm
  | barracks
  | archer_trainer
  | guard_tower
  | badB (n : Nat)
deriving DecidableEq, Repr

/-- Resource node classes ('tree' / 'mine'). -/
inductive RCl where
  | tree
  | mine
deriving DecidableEq, Repr

/-- Carried resource kinds ('wood' / 'coal'). -/
inductive Res where
  | wood
  | coal
deriving DecidableEq, Repr

/-- Unit behavioural states, as the string states of main.js. -/
inductive UState where
  | idle
  | moving
  | moving_to_resource
  | harvesting
  | returning
  | moving_to_build
  | building
  | moving_to_attack
  | attacking
  | retreating
deriving DecidableEq, Repr

/-- Entity identifier strings: `unit-N`, `bldg-N`, `cons-N`, `res-…-N`. -/
inductive EntId where
  | unitId (n : Nat)
  | bldgId (n : Nat)
  | consId (n : Nat)
  | resId (n : Nat)
deriving DecidableEq, Repr

/-- The recorded game-over outcome shown by `showGameOver`. -/
inductive GWinner where
  | winnerKey (k : FKey)
  | draw
deriving DecidableEq, Repr

-- Constants from game-data.js.

def STARTING_FOOD_CAP : Int := 4
def MINE_HEALTH_INIT : Int := 30
def TREE_HARVEST_TIME : ℚ := 5000
def MINE_HARVEST_TIME : ℚ := 7000
def UNIT_SPEED : ℚ := 28/10
def COLLISION_PADDING : ℚ := 5
def WORKER_RETREAT_HP_PERCENT : ℚ := 1/2
def AI_UPDATE_INTERVAL : Nat := 30
def AI_TARGET_WORKERS : Nat := 5
def AI_TARGET_SOLDIERS : Nat := 7
def AI_TARGET_ARCHERS : Nat := 4
def AI_TARGET_GUARD_TOWERS : Nat := 2
def ATTACK_RANGE_TOLERANCE : ℚ := 10
def FARM_TOTAL_SIZE : ℚ := 180

/-- Static per-unit-type data (game-data.js `FACTION_DATA[*].units[*]`).
Absent numeric fields are stored as `0`, matching the `|| 0` / falsy-default
reads at every use site (`|| 1000` for `attackSpeed` is applied in
`createUnit`, where `0` is falsy exactly like `undefined`). -/
structure UnitStatic where
  costWood : Int
  costCoal : Int
  foodCost : Int
  hp : ℚ
  canBuild : Bool
  trainTime : ℚ
  attackRange : ℚ
  attackDamage : ℚ
  attackSpeed : ℚ
deriving DecidableEq, Repr

/-- Static per-building-type data (game-data.js `FACTION_DATA[*].buildings[*]`). -/
structure BldgStatic where
  costWood : Int
  costCoal : Int
  sizeW : ℚ
  sizeH : ℚ
  hp : ℚ
  buildTime : ℚ
  provides_food : Int
  isBase : Bool
  trains : Option UTy
  attackRange : ℚ
  attackDamage : ℚ
  attackSpeed : ℚ
deriving DecidableEq, Repr

/-- One faction's static stat tables. -/
structure FactionData where
  unitsTab : UTy → Option UnitStatic
  buildingsTab : BTy → Option BldgStatic

def humanUnits : UTy → Option UnitStatic
  | .worker => some ⟨5, 2, 1, 50, true, 8000, 0, 0, 0⟩
  | .soldier => some ⟨10, 5, 2, 100, false, 12000, 30, 10, 1000⟩
  | .archer => some ⟨12, 8, 2, 70, false, 15000, 150, 8, 1200⟩
  | .badU _ => none

def humanBuildings : BTy → Option BldgStatic
  | .base => some ⟨0, 0, 180, 180, 1500, 1, STARTING_FOOD_CAP, true, some .worker, 0, 0, 0⟩
  | .farm => some ⟨7, 0, FARM_TOTAL_SIZE, FARM_TOTAL_SIZE, 200, 15000, 4, false, none, 0, 0, 0⟩
  | .barracks => some ⟨7, 5, 140, 140, 800, 25000, 0, false, some .soldier, 0, 0, 0⟩
  | .archer_trainer => some ⟨15, 10, 130, 130, 700, 30000, 0, false, some .archer, 0, 0, 0⟩
  | .guard_tower => some ⟨20, 15, 80, 100, 500, 35000, 0, false, none, 200, 12, 1800⟩
  | .badB _ => none

def zombieUnits : UTy → Option UnitStatic
  | .worker => some ⟨5, 2, 1, 60, true, 8000, 0, 0, 0⟩
  | .soldier => some ⟨10, 5, 2, 120, false, 12000, 35, 12, 1100⟩
  | .archer => some ⟨12, 8, 2, 80, false, 15000, 140, 7, 1300⟩
  | .badU _ => none

def zombieBuildings : BTy → Option BldgStatic
  | .base => some ⟨0, 0, 180, 180, 1800, 1, STARTING_FOOD_CAP, true, some .worker, 0, 0, 0⟩
  | .farm => some ⟨7, 0, FARM_TOTAL_SIZE, FARM_TOTAL_SIZE, 250, 15000, 4, false, none, 0, 0, 0⟩
  | .barracks => some ⟨7, 5, 140, 140, 900, 25000, 0, false, some .soldier, 0, 0, 0⟩
  | .archer_trainer => some ⟨15, 10, 130, 130, 800, 30000, 0, false, some .archer, 0, 0, 0⟩
  | .guard_tower => some ⟨20, 15, 80, 100, 600, 35000, 0, false, none, 190, 14, 1900⟩
  | .badB _ => none

/-- `FACTION_DATA` lookup; `none` models an absent key. -/
def FACTION_DATA : FKey → Option FactionData
  | .human => some ⟨humanUnits, humanBuildings⟩
  | .zombie => some ⟨zombieUnits, zombieBuildings⟩
  | .badKey _ => none

/-- Dynamic unit object (createUnit, main.js lines 1674-1694). -/
structure UnitE where
  addr : Nat
  id : EntId
  elem : Nat
  elemConnected : Bool
  faction : FKey
  unitType : UTy
  worldX : ℚ
  worldY : ℚ
  target : Option Pt
  targetElement : Option Nat
  state : UState
  resourceType : Option Res
  harvestTimer : Option Nat
  lastHarvestedNodeId : Option EntId
  constructionId : Option EntId
  ai_tasked : Bool
  hp : ℚ
  maxHp : ℚ
  foodCost : Int
  canBuild : Bool
  attackRange : ℚ
  attackDamage : ℚ
  attackSpeed : ℚ
  lastAttackTime : ℚ
  speed : ℚ
  preferredResourceType : Option RCl
deriving DecidableEq, Repr

/-- Dynamic building object.  Construction sites share this shape (JS objects
are field bags; `createConstructionSite` stores `progress`, `buildTime`,
`assignedWorker` on the same kind of record, and the two are stored in the
same `buildings` array). -/
structure BldgE where
  addr : Nat
  id : EntId
  bldgType : BTy
  elem : Option Nat
  elemConnected : Bool
  box : Box
  isConstructing : Bool
  isBase : Bool
  faction : FKey
  hp : ℚ
  maxHp : ℚ
  provides_food : Int
  isTraining : Bool
  trainingProgress : ℚ
  trainingTotalTime : ℚ
  trainingUnitType : Option UTy
  attackRange : ℚ
  attackDamage : ℚ
  attackSpeed : ℚ
  lastAttackTime : ℚ
  assignedWorker : Option Nat
  progress : ℚ
  buildTime : ℚ
deriving DecidableEq, Repr

/-- Resource node (placeResourcesCarefully, main.js lines 2002-2008). -/
structure ResE where
  addr : Nat
  id : EntId
  rtype : RCl
  elem : Nat
  elemConnected : Bool
  box : Box
  health : Int
deriving DecidableEq, Repr

/-- The whole mutable game state (game-state.js globals plus the object heap). -/
structure GameState where
  unitPool : List UnitE
  bldgPool : List BldgE
  resPool : List ResE
  units : List Nat
  buildings : List Nat
  constructions : List Nat
  resources : List Nat
  p1Wood : Int
  p1Coal : Int
  p2Wood : Int
  p2Coal : Int
  p1CurrentFood : Int
  p1FoodCapacity : Int
  p2CurrentFood : Int
  p2FoodCapacity : Int
  unitIdCounter : Nat
  buildingIdCounter : Nat
  constructionIdCounter : Nat
  allocCounter : Nat
  elemCounter : Nat
  selectedUnit : Option Nat
  selectedBuilding : Option Nat
  gameOver : Bool
  gameInitialized : Bool
  recordedWinner : Option GWinner
  gameMode : GMode
  p1FactionKey : FKey
  p2FactionKey : FKey
  playerBase : Option Nat
  opponentBase : Option Nat
  placingBuildingType : Option BTy
  placingFarm : Bool
  pendingMineRemovals : List Nat
  worldW : ℚ
  worldH : ℚ
  aiCounterP1 : Nat
  aiCounterP2 : Nat
deriving DecidableEq, Repr

-- Heap lookups and updates (object dereference / field mutation).

def lookupU (st : GameState) (a : Nat) : Option UnitE :=
  st.unitPool.find? (fun u => u.addr = a)

def lookupB (st : GameState) (a : Nat) : Option BldgE :=
  st.bldgPool.find? (fun b => b.addr = a)

def lookupR (st : GameState) (a : Nat) : Option ResE :=
  st.resPool.find? (fun r => r.addr = a)

def updU (st : GameState) (a : Nat) (f : UnitE → UnitE) : GameState :=
  { st with unitPool := st.unitPool.map (fun u => if u.addr = a then f u else u) }

def updB (st : GameState) (a : Nat) (f : BldgE → BldgE) : GameState :=
  { st with bldgPool := st.bldgPool.map (fun b => if b.addr = a then f b else b) }

def updR (st : GameState) (a : Nat) (f : ResE → ResE) : GameState :=
  { st with resPool := st.resPool.map (fun r => if r.addr = a then f r else r) }

/-- The live `units` array, dereferenced. -/
def unitsArr (st : GameState) : List UnitE :=
  st.units.filterMap (lookupU st)

/-- The live `buildings` array, dereferenced. -/
def bldgsArr (st : GameState) : List BldgE :=
  st.buildings.filterMap (lookupB st)

/-- The live `constructions` array, dereferenced. -/
def consArr (st : GameState) : List BldgE :=
  st.constructions.filterMap (lookupB st)

/-- The live `resources` array, dereferenced. -/
def resArr (st : GameState) : List ResE :=
  st.resources.filterMap (lookupR st)

-- Geometry utilities (main.js lines 1053-1061, 1649-1653).

/-- `checkAABBOverlap(box1, box2, padding)`. -/
def checkAABBOverlap (box1 box2 : Box) (padding : ℚ) : Bool :=
  if box1.width = 0 ∨ box2.width = 0 then false
  else
    box1.xMin < box2.xMax + padding ∧ box1.xMax > box2.xMin - padding ∧
    box1.yMin < box2.yMax + padding ∧ box1.yMax > box2.yMin - padding

/-- `distanceSq(pos1, pos2)`. -/
def distanceSq (pos1 pos2 : Pt) : ℚ :=
  (pos1.x - pos2.x) * (pos1.x - pos2.x) + (pos1.y - pos2.y) * (pos1.y - pos2.y)

-- Resource economy (main.js lines 1064-1082, 249-267).

/-- `calculateCurrentFood(factionKeyToCalc)`: sum of the static `foodCost` of
the faction's units currently in the `units` array. -/
def calculateCurrentFood (st : GameState) (factionKeyToCalc : FKey) : Int :=
  match FACTION_DATA factionKeyToCalc with
  | none => 0
  | some fd =>
    (unitsArr st).foldl
      (fun sum u =>
        sum + (if u.faction = factionKeyToCalc then
                 (match fd.unitsTab u.unitType with
                  | some s => s.foodCost
                  | none => 0)
               else 0))
      0

/-- `calculateFoodCapacity(factionKeyToCalc)`. -/
def calculateFoodCapacity (st : GameState) (factionKeyToCalc : FKey) : Int :=
  match FACTION_DATA factionKeyToCalc with
  | none => STARTING_FOOD_CAP
  | some fd =>
    let capacity :=
      (bldgsArr st).foldl
        (fun cap b =>
          if b.faction = factionKeyToCalc ∧ ¬b.isConstructing ∧ b.hp > 0 then
            cap + (match fd.buildingsTab b.bldgType with
                   | some s => s.provides_food
                   | none => 0)
          else cap)
        0
    max STARTING_FOOD_CAP capacity

/-- `updateResourceDisplay()`: recomputes the cached per-faction food values
(the rest of the function is UI only). -/
def updateResourceDisplay (st : GameState) : GameState :=
  { st with
    p1CurrentFood := calculateCurrentFood st st.p1FactionKey
    p1FoodCapacity := calculateFoodCapacity st st.p1FactionKey
    p2CurrentFood := calculateCurrentFood st st.p2FactionKey
    p2FoodCapacity := calculateFoodCapacity st st.p2FactionKey }

/-- `cancelPlacement()` (main.js line 856): refunds a pending placement's cost
to player 1 and clears the placement flags. -/
def cancelPlacement (st : GameState) : GameState :=
  if st.gameMode = GMode.ai_vs_ai then st
  else
    match st.placingBuildingType with
    | none => st
    | some currentPlacementType =>
      let st :=
        match FACTION_DATA st.p1FactionKey with
        | none => st
        | some fd =>
          match fd.buildingsTab currentPlacementType with
          | none => st
          | some s =>
            updateResourceDisplay
              { st with p1Wood := st.p1Wood + s.costWood, p1Coal := st.p1Coal + s.costCoal }
      let st :=
        if currentPlacementType = BTy.farm then { st with placingFarm := false } else st
      { st with placingBuildingType := none }

/-- `deselectAll()` (main.js line 706): simulation-relevant effects only. -/
def deselectAll (st : GameState) : GameState :=
  if st.gameMode = GMode.ai_vs_ai then st
  else
    let st := if st.selectedUnit.isSome then { st with selectedUnit := none } else st
    let st := if st.selectedBuilding.isSome then { st with selectedBuilding := none } else st
    if st.placingBuildingType.isSome ∨ st.placingFarm then cancelPlacement st else st

-- Unit state machine (main.js lines 2030-2075).

/-- `setUnitState(unit, newState)`. -/
def setUnitState (st : GameState) (ua : Nat) (newState : UState) : GameState :=
  match lookupU st ua with
  | none => st
  | some u =>
    if u.state = newState then st
    else
      let st := if u.state = UState.harvesting then updU st ua (fun v => { v with harvestTimer := none }) else st
      let st := if u.state = UState.attacking then updU st ua (fun v => { v with lastAttackTime := 0 }) else st
      let st :=
        if newState ≠ UState.building ∧ newState ≠ UState.moving_to_build ∧ u.constructionId.isSome then
          let st :=
            match (consArr st).find? (fun c => some c.id = u.constructionId) with
            | some cons =>
              if cons.assignedWorker = some ua then
                updB st cons.addr (fun c => { c with assignedWorker := none })
              else st
            | none => st
          updU st ua (fun v => { v with constructionId := none })
        else st
      let st := updU st ua (fun v => { v with state := newState })
      match newState with
      | UState.idle =>
        updU st ua (fun v =>
          { v with target := none, targetElement := none,
                   lastHarvestedNodeId := none, constructionId := none, ai_tasked := false })
      | UState.attacking =>
        updU st ua (fun v => { v with target := none, lastAttackTime := 0 })
      | UState.retreating =>
        updU st ua (fun v => { v with targetElement := none, resourceType := none })
      | _ => st

/-- A command object passed to `issueCommand`. -/
structure Command where
  state : UState
  target : Option Pt
  targetElement : Option Nat
  constructionId : Option EntId
  preferredType : Option RCl
deriving DecidableEq, Repr

/-- The field updates of `issueCommand` that precede the `setUnitState` call
(main.js lines 2082-2104): timer cancellation, preference bookkeeping,
release of a superseded construction assignment, and the atomic
target/target-element/constructionId assignment. -/
def issueCommandPre (st : GameState) (ua : Nat) (command : Command)
    (triggeredByAI : Bool) : GameState :=
  match lookupU st ua with
  | none => st
  | some u =>
    let st := updU st ua (fun v => { v with harvestTimer := none })
    let st :=
      if command.state ≠ UState.returning then
        updU st ua (fun v => { v with lastHarvestedNodeId := none })
      else st
    let st :=
      if command.state = UState.moving_to_resource ∧ command.preferredType.isSome ∧
         u.faction = st.p1FactionKey ∧ st.gameMode = GMode.human_vs_ai then
        updU st ua (fun v => { v with preferredResourceType := command.preferredType })
      else if command.state ≠ UState.moving_to_resource then
        updU st ua (fun v => { v with preferredResourceType := none })
      else st
    let st :=
      if u.state = UState.building ∧ u.constructionId.isSome ∧
         u.constructionId ≠ command.constructionId then
        match (consArr st).find? (fun c => some c.id = u.constructionId) with
        | some oldCons =>
          if oldCons.assignedWorker = some ua then
            updB st oldCons.addr (fun c => { c with assignedWorker := none })
          else st
        | none => st
      else st
    updU st ua (fun v =>
      { v with constructionId := command.constructionId, ai_tasked := triggeredByAI,
               targetElement := command.targetElement, target := command.target })

/-- `issueCommand(unit, command, triggeredByAI)` (main.js lines 2080-2113);
the `Option Nat` argument models a possibly-null unit reference. -/
def issueCommand (st : GameState) (uref : Option Nat) (command : Command)
    (triggeredByAI : Bool) : GameState :=
  match uref with
  | none => st
  | some ua =>
    match lookupU st ua with
    | none => st
    | some u =>
      if u.hp ≤ 0 then st
      else
        let st := issueCommandPre st ua command triggeredByAI
        let st := setUnitState st ua command.state
        if command.state ≠ UState.returning then
          updU st ua (fun v => { v with resourceType := none })
        else st

-- Game-over evaluation (main.js lines 2180-2203, showGameOver at 996).

/-- The `buildings.some(b => b.isBase && b.faction === key && b.hp > 0)` test
of `checkGameOver` (lines 2183-2184). -/
def hasLivingBase (st : GameState) (key : FKey) : Bool :=
  (bldgsArr st).any (fun b =>
    b.isBase && decide (b.faction = key) && decide (b.hp > 0))

/-- `checkGameOver()`; the `Bool` is the JS return value.  `showGameOver`
additionally clears `gameInitialized` and records the outcome. -/
def checkGameOver (st : GameState) : GameState × Bool :=
  if st.gameOver then (st, true)
  else
    let p1HasBase := hasLivingBase st st.p1FactionKey
    let p2HasBase := hasLivingBase st st.p2FactionKey
    let winner : Option GWinner :=
      if st.gameInitialized then
        if ¬p2HasBase ∧ p1HasBase then some (GWinner.winnerKey st.p1FactionKey)
        else if ¬p1HasBase ∧ p2HasBase then some (GWinner.winnerKey st.p2FactionKey)
        else if ¬p1HasBase ∧ ¬p2HasBase then some GWinner.draw
        else none
      else none
    match winner with
    | some w =>
      ({ st with gameOver := true, gameInitialized := false, recordedWinner := some w }, true)
    | none => (st, false)

-- Combat resolver (main.js lines 2116-2178).

/-- A reference to a damageable entity: a unit object or a building /
construction-site object. -/
inductive DTarget where
  | tu (a : Nat)
  | tb (a : Nat)
deriving DecidableEq, Repr

/-- One iteration of the attacker-reversion loop of `dealDamage`
(lines 2143-2147). -/
def attackerResetStep (telem : Option Nat) (s : GameState) (a : Nat) : GameState :=
  match lookupU s a with
  | some attacker =>
    if (attacker.state = UState.attacking ∨ attacker.state = UState.moving_to_attack) ∧
       attacker.targetElement = telem then
      setUnitState s a UState.idle
    else s
  | none => s

/-- The attacker-reversion loop of `dealDamage` (lines 2143-2147): every unit
in state 'attacking' or 'moving_to_attack' whose `targetElement` is the dead
entity's element is set to 'idle'. -/
def attackerResetFold (st : GameState) (telem : Option Nat) : GameState :=
  st.units.foldl (attackerResetStep telem) st

/-- The registry-removal part of `dealDamage`'s death branch
(lines 2140-2176): deselection, attacker reversion, removal from `units` or
from `buildings` (and `constructions`), base game-over check, and the economy
recomputations. -/
def deathBookkeeping (st : GameState) (taddr : Nat) (tid : EntId) (telem : Option Nat) :
    GameState :=
  let st := if st.selectedUnit = some taddr then deselectAll st else st
  let st := if st.selectedBuilding = some taddr then deselectAll st else st
  let st := attackerResetFold st telem
  let st :=
    match st.units.findIdx? (fun a =>
        match lookupU st a with
        | some u => decide (u.id = tid)
        | none => false) with
    | some i => { st with units := st.units.eraseIdx i }
    | none =>
      match st.buildings.findIdx? (fun a =>
          match lookupB st a with
          | some b => decide (b.id = tid)
          | none => false) with
      | none => st
      | some j =>
        match st.buildings[j]? >>= lookupB st with
        | none => st
        | some destroyedBuildingData =>
          let st :=
            match st.constructions.findIdx? (fun a =>
                match lookupB st a with
                | some c => decide (c.id = tid)
                | none => false) with
            | some k =>
              let st :=
                match st.constructions[k]? >>= lookupB st with
                | some consRec =>
                  match consRec.assignedWorker with
                  | some w =>
                    match lookupU st w with
                    | some worker =>
                      if worker.state = UState.building ∧ worker.constructionId = some tid then
                        setUnitState st w UState.idle
                      else st
                    | none => st
                  | none => st
                | none => st
              { st with constructions := st.constructions.eraseIdx k }
            | none => st
          let st := { st with buildings := st.buildings.eraseIdx j }
          let st := if destroyedBuildingData.isBase then (checkGameOver st).1 else st
          let providesFood : Bool :=
            match FACTION_DATA destroyedBuildingData.faction with
            | some fd =>
              match fd.buildingsTab destroyedBuildingData.bldgType with
              | some s => decide (s.provides_food ≠ 0)
              | none => false
            | none => false
          if providesFood then updateResourceDisplay st else st
  updateResourceDisplay st

/-- The `playerBaseData && playerBaseData.hp > 0` test of the retreat branch. -/
def playerBaseAlive (st : GameState) : Bool :=
  match st.playerBase >>= lookupB st with
  | some pb => decide (pb.hp > 0)
  | none => false

/-- `dealDamage(targetData, damage)` (main.js lines 2116-2178). -/
def dealDamage (st : GameState) (target : DTarget) (damage : ℚ) : GameState :=
  match target with
  | DTarget.tu a =>
    match lookupU st a with
    | none => st
    | some td =>
      if td.hp ≤ 0 then st
      else
        let st := updU st a (fun v => { v with hp := v.hp - damage })
        let newHp := td.hp - damage
        let st :=
          if st.gameMode = GMode.human_vs_ai ∧ td.faction = st.p1FactionKey ∧
             td.unitType = UTy.worker ∧ newHp > 0 ∧
             newHp / td.maxHp < WORKER_RETREAT_HP_PERCENT ∧
             td.state ≠ UState.retreating ∧ playerBaseAlive st then
            match st.playerBase >>= lookupB st with
            | some pb =>
              issueCommand st (some a)
                ⟨UState.retreating, some ⟨pb.box.centerX, pb.box.centerY⟩, none, none, none⟩ false
            | none => st
          else st
        if newHp ≤ 0 then
          let st := updU st a (fun v => { v with hp := 0 })
          let st := if td.elemConnected then updU st a (fun v => { v with elemConnected := false }) else st
          deathBookkeeping st a td.id (some td.elem)
        else st
  | DTarget.tb a =>
    match lookupB st a with
    | none => st
    | some td =>
      if td.hp ≤ 0 then st
      else
        -- the worker-retreat branch tests `targetData.unitType === 'worker'`,
        -- which is never true of a building object
        let st := updB st a (fun v => { v with hp := v.hp - damage })
        let newHp := td.hp - damage
        if newHp ≤ 0 then
          let st := updB st a (fun v => { v with hp := 0 })
          let st :=
            if td.elem.isSome ∧ td.elemConnected then
              updB st a (fun v => { v with elemConnected := false })
            else st
          deathBookkeeping st a td.id td.elem
        else st

-- Resource gathering (main.js lines 2206-2318, 2590-2618).

/-- `findNearestResource(unit, resourceClassType)` (lines 2590-2618). -/
def findNearestResource (st : GameState) (unit : UnitE) (resourceClassType : RCl) :
    Option ResE :=
  let unitPos : Pt := ⟨unit.worldX, unit.worldY⟩
  let best :=
    (resArr st).foldl
      (fun acc resource =>
        if resource.rtype ≠ resourceClassType ∨ ¬resource.elemConnected then acc
        else if resourceClassType = RCl.mine ∧ resource.health ≤ 0 then acc
        else
          let isTargetedByOwnFaction :=
            (unitsArr st).any (fun v =>
              decide (v.addr ≠ unit.addr) && decide (v.faction = unit.faction) &&
              decide (v.targetElement = some resource.elem) &&
              (decide (v.state = UState.moving_to_resource) || decide (v.state = UState.harvesting)))
          if isTargetedByOwnFaction ∧ resourceClassType = RCl.mine then acc
          else if resource.box.width = 0 then acc
          else
            let dSq := distanceSq unitPos ⟨resource.box.centerX, resource.box.centerY⟩
            match acc with
            | none => some (resource, dSq)
            | some (_, bestSq) => if dSq < bestSq then some (resource, dSq) else acc)
      (none : Option (ResE × ℚ))
  best.map Prod.fst

/-- `findAndTargetNearestResource(unit, resourceClassType, specificNode,
triggeredByAI)` (lines 2299-2318). -/
def findAndTargetNearestResource (st : GameState) (ua : Nat) (resourceClassType : RCl)
    (specificNode : Option ResE) (triggeredByAI : Bool) : GameState × Bool :=
  match lookupU st ua with
  | none => (st, false)
  | some unit =>
    let nodeToTarget :=
      match specificNode with
      | some n => some n
      | none => findNearestResource st unit resourceClassType
    match nodeToTarget with
    | some n =>
      if n.elemConnected then
        let targetBox := n.box
        if targetBox.width > 0 then
          (issueCommand st (some ua)
            ⟨UState.moving_to_resource, some ⟨targetBox.centerX, targetBox.centerY⟩,
             some n.elem, none, some resourceClassType⟩ triggeredByAI, true)
        else (setUnitState st ua UState.idle, false)
      else (setUnitState st ua UState.idle, false)
    | none => (setUnitState st ua UState.idle, false)

/-- Drops a node id from the `resources` array
(`resources = resources.filter(r => r.id !== nodeId)`). -/
def filterOutResource (st : GameState) (nodeId : EntId) : GameState :=
  { st with resources := st.resources.filter (fun a =>
      match lookupR st a with
      | some r => !decide (r.id = nodeId)
      | none => true) }

/-- `handleHarvestComplete(unit, resourceData)` (lines 2206-2252).  The 500ms
deferred removal of a depleted mine is recorded in `pendingMineRemovals`. -/
def handleHarvestComplete (st : GameState) (ua ra : Nat) : GameState :=
  match lookupU st ua, lookupR st ra with
  | some unit, some resourceData =>
    if unit.state ≠ UState.harvesting ∨ ¬resourceData.elemConnected then
      if unit.state = UState.harvesting then setUnitState st ua UState.idle else st
    else
      let st := updU st ua (fun v => { v with harvestTimer := none })
      let nodeId := resourceData.id
      let (st, harvestedType) :=
        match resourceData.rtype with
        | RCl.tree =>
          let st := updR st ra (fun r => { r with health := 0 })
          let st :=
            if resourceData.elemConnected then
              updR st ra (fun r => { r with elemConnected := false })
            else st
          (filterOutResource st nodeId, some Res.wood)
        | RCl.mine =>
          if resourceData.health > 0 then
            let st := updR st ra (fun r => { r with health := r.health - 1 })
            let st :=
              if resourceData.health - 1 ≤ 0 then
                { st with pendingMineRemovals := st.pendingMineRemovals ++ [ra] }
              else st
            (st, some Res.coal)
          else (st, none)
      match harvestedType with
      | some t =>
        let st := updU st ua (fun v =>
          { v with resourceType := some t, lastHarvestedNodeId := some nodeId })
        let targetBaseRef := if unit.faction = st.p1FactionKey then st.playerBase else st.opponentBase
        match targetBaseRef >>= lookupB st with
        | some targetBase =>
          if targetBase.hp > 0 then
            issueCommand st (some ua)
              ⟨UState.returning, some ⟨targetBase.box.centerX, targetBase.box.centerY⟩,
               targetBase.elem, none, none⟩ false
          else setUnitState st ua UState.idle
        | none => setUnitState st ua UState.idle
      | none =>
        let nextPreferredType := unit.preferredResourceType.getD
          (if resourceData.rtype = RCl.tree then RCl.mine else RCl.tree)
        let st := (findAndTargetNearestResource st ua nextPreferredType none
          (decide (unit.faction ≠ st.p1FactionKey) || decide (st.gameMode = GMode.ai_vs_ai))).1
        updU st ua (fun v => { v with targetElement := none })
  | some unit, none =>
    if unit.state = UState.harvesting then setUnitState st ua UState.idle else st
  | none, _ => st

/-- The body of the 500ms `setTimeout` scheduled for a depleted mine
(lines 2228-2233). -/
def runPendingMineRemoval (st : GameState) (ra : Nat) : GameState :=
  if st.pendingMineRemovals.contains ra then
    match lookupR st ra with
    | some r =>
      let st := if r.elemConnected then updR st ra (fun v => { v with elemConnected := false }) else st
      let st := filterOutResource st r.id
      { st with pendingMineRemovals := st.pendingMineRemovals.filter (fun x => x ≠ ra) }
    | none => st
  else st

/-- `handleDepositResource(unit)` (lines 2254-2297). -/
def handleDepositResource (st : GameState) (ua : Nat) : GameState :=
  match lookupU st ua with
  | none => st
  | some unit =>
    let returnedType := unit.resourceType
    let lastNodeId := unit.lastHarvestedNodeId
    let targetBaseRef := if unit.faction = st.p1FactionKey then st.playerBase else st.opponentBase
    match targetBaseRef >>= lookupB st with
    | none => setUnitState st ua UState.idle
    | some targetBase =>
      if targetBase.hp ≤ 0 then setUnitState st ua UState.idle
      else
        let depo :=
          if unit.faction = st.p1FactionKey then
            match returnedType with
            | some Res.wood => ({ st with p1Wood := st.p1Wood + 1 }, true)
            | some Res.coal => ({ st with p1Coal := st.p1Coal + 1 }, true)
            | none => (st, false)
          else
            match returnedType with
            | some Res.wood => ({ st with p2Wood := st.p2Wood + 1 }, true)
            | some Res.coal => ({ st with p2Coal := st.p2Coal + 1 }, true)
            | none => (st, false)
        let st := depo.1
        let st := if depo.2 then updateResourceDisplay st else st
        let st := updU st ua (fun v => { v with resourceType := none })
        let searchType := unit.preferredResourceType.getD
          (if returnedType = some Res.wood then RCl.tree else RCl.mine)
        let nextTargetNode : Option ResE :=
          if searchType = RCl.mine ∧ lastNodeId.isSome then
            (resArr st).find? (fun r =>
              decide (some r.id = lastNodeId) && r.elemConnected && decide (r.health > 0))
          else none
        let nextTargetNode :=
          match nextTargetNode with
          | some n => some n
          | none =>
            match lookupU st ua with
            | some u2 => findNearestResource st u2 searchType
            | none => none
        let nextTargetNode :=
          match nextTargetNode with
          | some n => some n
          | none =>
            if unit.preferredResourceType.isSome then
              match lookupU st ua with
              | some u2 =>
                findNearestResource st u2 (if searchType = RCl.tree then RCl.mine else RCl.tree)
              | none => none
            else none
        match nextTargetNode with
        | some n =>
          (findAndTargetNearestResource st ua n.rtype (some n)
            (decide (unit.faction ≠ st.p1FactionKey) || decide (st.gameMode = GMode.ai_vs_ai))).1
        | none => setUnitState st ua UState.idle

-- Entity creation (main.js lines 1664-1882).

/-- `createUnit(unitType, spawnPos, factionKey)` (lines 1664-1719).  Returns
the new unit's address, or `none` on a failed stat-table lookup (in which
case nothing is mutated). -/
def createUnit (st : GameState) (unitType : UTy) (spawnPos : Pt) (factionKey : FKey) :
    GameState × Option Nat :=
  match FACTION_DATA factionKey with
  | none => (st, none)
  | some unitFactionData =>
    match unitFactionData.unitsTab unitType with
    | none => (st, none)
    | some unitStaticData =>
      let elem := st.elemCounter
      let addr := st.allocCounter
      let unit : UnitE :=
        { addr := addr
          id := EntId.unitId st.unitIdCounter
          elem := elem
          elemConnected := true
          faction := factionKey
          unitType := unitType
          worldX := spawnPos.x
          worldY := spawnPos.y
          target := none
          targetElement := none
          state := UState.idle
          resourceType := none
          harvestTimer := none
          lastHarvestedNodeId := none
          constructionId := none
          ai_tasked := false
          hp := unitStaticData.hp
          maxHp := unitStaticData.hp
          foodCost := unitStaticData.foodCost
          canBuild := unitStaticData.canBuild
          attackRange := unitStaticData.attackRange
          attackDamage := unitStaticData.attackDamage
          -- `unitStaticData.attackSpeed || 1000`: `0` is falsy exactly as the
          -- absent field is
          attackSpeed := if unitStaticData.attackSpeed = 0 then 1000 else unitStaticData.attackSpeed
          lastAttackTime := 0
          speed := UNIT_SPEED
          preferredResourceType := none }
      ({ st with
          unitPool := st.unitPool ++ [unit]
          units := st.units ++ [addr]
          unitIdCounter := st.unitIdCounter + 1
          allocCounter := st.allocCounter + 1
          elemCounter := st.elemCounter + 1 }, some addr)

/-- `createBuilding(buildingType, positionBox, factionKey, isBase,
isConstructed)` (lines 1725-1824).  The DOM bounding box of the freshly
positioned element is the position box itself. -/
def createBuilding (st : GameState) (buildingType : BTy) (positionBox : Box)
    (factionKey : FKey) (isBase isConstructed : Bool) : GameState × Option Nat :=
  match FACTION_DATA factionKey with
  | none => (st, none)
  | some buildingFactionData =>
    match buildingFactionData.buildingsTab buildingType with
    | none => (st, none)
    | some buildingStaticData =>
      let farmDone := buildingType = BTy.farm ∧ isConstructed
      let elem := st.elemCounter
      let addr := st.allocCounter
      let buildingData : BldgE :=
        { addr := addr
          id := EntId.bldgId st.buildingIdCounter
          bldgType := buildingType
          elem := if farmDone then none else some elem
          elemConnected := ¬farmDone
          box := positionBox
          isConstructing := ¬isConstructed
          isBase := isBase
          faction := factionKey
          hp := buildingStaticData.hp
          maxHp := buildingStaticData.hp
          provides_food := buildingStaticData.provides_food
          isTraining := false
          trainingProgress := 0
          trainingTotalTime := 0
          trainingUnitType := none
          attackRange := buildingStaticData.attackRange
          attackDamage := buildingStaticData.attackDamage
          attackSpeed := buildingStaticData.attackSpeed
          lastAttackTime := 0
          assignedWorker := none
          progress := 0
          buildTime := 0 }
      let st :=
        { st with
          bldgPool := st.bldgPool ++ [buildingData]
          buildings := st.buildings ++ [addr]
          buildingIdCounter := st.buildingIdCounter + 1
          allocCounter := st.allocCounter + 1
          elemCounter := st.elemCounter + 1 }
      let st :=
        if isBase then
          if factionKey = st.p1FactionKey then { st with playerBase := some addr }
          else { st with opponentBase := some addr }
        else st
      (st, some addr)

/-- `assignWorkerToConstruction(constructionData, unit, triggeredByAI)`
(lines 2320-2350). -/
def assignWorkerToConstruction (st : GameState) (ca ua : Nat) (triggeredByAI : Bool) :
    GameState :=
  match lookupB st ca, lookupU st ua with
  | some constructionData, some unit =>
    if constructionData.assignedWorker = some ua then st
    else
      let st :=
        match constructionData.assignedWorker with
        | some ow =>
          match lookupU st ow with
          | some oldWorker =>
            if oldWorker.state = UState.building ∧
               oldWorker.constructionId = some constructionData.id then
              setUnitState st ow UState.idle
            else st
          | none => st
        | none => st
      let st :=
        if unit.constructionId.isSome ∧ unit.constructionId ≠ some constructionData.id then
          match (consArr st).find? (fun c => some c.id = unit.constructionId) with
          | some otherCons =>
            if otherCons.assignedWorker = some ua then
              updB st otherCons.addr (fun c => { c with assignedWorker := none })
            else st
          | none => st
        else st
      let st := updB st ca (fun c => { c with assignedWorker := some ua })
      let st := updU st ua (fun v => { v with constructionId := some constructionData.id })
      let unitSize : ℚ := 36
      let targetX := constructionData.box.xMin + constructionData.box.width / 2
      let targetY := constructionData.box.yMin + constructionData.box.height +
        unitSize / 2 + COLLISION_PADDING
      issueCommand st (some ua)
        ⟨UState.moving_to_build, some ⟨targetX, targetY⟩, constructionData.elem,
         some constructionData.id, none⟩ triggeredByAI
  | _, _ => st

/-- `startWorkerBuilding(unit, constructionData)` (lines 2352-2358). -/
def startWorkerBuilding (st : GameState) (ua ca : Nat) : GameState :=
  match lookupU st ua, lookupB st ca with
  | some unit, some constructionData =>
    if unit.constructionId = some constructionData.id ∧
       constructionData.assignedWorker = some ua then
      setUnitState st ua UState.building
    else st
  | _, _ => st

/-- `createConstructionSite(buildingType, box, forFaction, byWorker)`
(lines 1829-1882).  Note the source increments `constructionIdCounter` before
validating the building type, so a failed call still bumps the counter.
(An absent faction key makes the source throw on the `.buildings` access;
that branch is modelled as a null return and is not relied on.) -/
def createConstructionSite (st : GameState) (buildingType : BTy) (box : Box)
    (forFaction : FKey) (byWorker : Option Nat) : GameState × Option Nat :=
  let consIdN := st.constructionIdCounter
  let st := { st with constructionIdCounter := st.constructionIdCounter + 1 }
  match FACTION_DATA forFaction with
  | none => (st, none)
  | some fd =>
    match fd.buildingsTab buildingType with
    | none => (st, none)
    | some buildingStaticData =>
      let elem := st.elemCounter
      let addr := st.allocCounter
      let constructionData : BldgE :=
        { addr := addr
          id := EntId.consId consIdN
          bldgType := buildingType
          elem := some elem
          elemConnected := true
          box := box
          isConstructing := true
          isBase := false
          faction := forFaction
          hp := buildingStaticData.hp * (1/10)
          maxHp := buildingStaticData.hp
          provides_food := 0
          isTraining := false
          trainingProgress := 0
          trainingTotalTime := 0
          trainingUnitType := none
          attackRange := 0
          attackDamage := 0
          attackSpeed := 0
          lastAttackTime := 0
          assignedWorker := none
          progress := 0
          buildTime := buildingStaticData.buildTime }
      let st :=
        { st with
          bldgPool := st.bldgPool ++ [constructionData]
          constructions := st.constructions ++ [addr]
          buildings := st.buildings ++ [addr]
          allocCounter := st.allocCounter + 1
          elemCounter := st.elemCounter + 1 }
      let st :=
        match byWorker with
        | some w =>
          match lookupU st w with
          | some worker =>
            if worker.unitType = UTy.worker ∧ worker.faction = forFaction ∧ worker.canBuild then
              assignWorkerToConstruction st addr w
                (decide (forFaction ≠ st.p1FactionKey) || decide (st.gameMode = GMode.ai_vs_ai))
            else st
          | none => st
        | none => st
      (st, some addr)

-- Construction completion and the per-tick constructions update
-- (main.js lines 2360-2404, 2916-2940).

/-- `completeConstruction(constructionData)` (lines 2360-2404). -/
def completeConstruction (st : GameState) (ca : Nat) : GameState :=
  match lookupB st ca with
  | none => st
  | some constructionData =>
    match FACTION_DATA constructionData.faction with
    | none => st
    | some fd =>
      match fd.buildingsTab constructionData.bldgType with
      | none => st
      | some buildingStaticData =>
        match st.buildings.findIdx? (fun a =>
            match lookupB st a with
            | some b => decide (b.id = constructionData.id)
            | none => false) with
        | none => st
        | some buildingIndex =>
          let st :=
            if constructionData.elem.isSome ∧ constructionData.elemConnected then
              updB st ca (fun c => { c with elemConnected := false })
            else st
          let created := createBuilding st constructionData.bldgType constructionData.box
            constructionData.faction buildingStaticData.isBase true
          let st := created.1
          let st :=
            match created.2 with
            | some newAddr =>
              -- `newBuilding.id = constructionData.id` (line 2376)
              let st := updB st newAddr (fun b => { b with id := constructionData.id })
              -- `buildings[buildingIndex] = newBuilding` (line 2378); note the
              -- `buildings.push` inside createBuilding is NOT undone, so the
              -- new building ends up in the array twice
              let st := { st with buildings := st.buildings.set buildingIndex newAddr }
              if st.selectedBuilding = some ca then { st with selectedBuilding := some newAddr }
              else st
            | none => { st with buildings := st.buildings.eraseIdx buildingIndex }
          let st :=
            match constructionData.assignedWorker with
            | some w =>
              match lookupU st w with
              | some worker =>
                if worker.constructionId = some constructionData.id ∧
                   worker.state = UState.building then
                  let st := setUnitState st w UState.idle
                  updU st w (fun v => { v with constructionId := none })
                else st
              | none => st
            | none => st
          let st :=
            match st.constructions.findIdx? (fun a =>
                match lookupB st a with
                | some c => decide (c.id = constructionData.id)
                | none => false) with
            | some consIndex => { st with constructions := st.constructions.eraseIdx consIndex }
            | none => st
          updateResourceDisplay st

/-- One iteration of the constructions loop in `gameLoop`
(lines 2916-2940) for the site at address `a`. -/
def consStep (st : GameState) (a : Nat) (deltaTime : ℚ) : GameState :=
  match lookupB st a with
  | none => st
  | some cons =>
    if ¬cons.isConstructing ∨ cons.elem.isNone ∨ ¬cons.elemConnected then st
    else
      let isBuildingByWorker : Bool :=
        match cons.assignedWorker >>= lookupU st with
        | some worker =>
          decide (worker.state = UState.building) && decide (worker.constructionId = some cons.id)
        | none => false
      let st :=
        if isBuildingByWorker then
          updB st a (fun v =>
            { v with progress := v.progress + deltaTime,
                     hp := min v.maxHp (v.hp + (v.maxHp / v.buildTime) * deltaTime) })
        else st
      match lookupB st a with
      | some cons2 =>
        if cons2.progress ≥ cons2.buildTime then completeConstruction st a else st
      | none => st

/-- The whole constructions pass of one `gameLoop` tick: the source iterates
`for (let i = constructions.length - 1; i >= 0; i--)` over the live array;
since an iteration only ever removes its own element (unique ids), this
equals a reverse-order pass over the snapshot. -/
def consTick (st : GameState) (deltaTime : ℚ) : GameState :=
  st.constructions.reverse.foldl (fun s a => consStep s a deltaTime) st

-- Training pipeline (main.js lines 2406-2493, 2879-2891).

/-- `trainUnit(unitType, trainingBuilding)` (lines 2445-2493). -/
def trainUnit (st : GameState) (unitType : UTy) (ba : Nat) : GameState :=
  match lookupB st ba with
  | none => st
  | some trainingBuilding =>
    let factionKey := trainingBuilding.faction
    let unitStaticData := (FACTION_DATA factionKey).bind (fun fd => fd.unitsTab unitType)
    let buildingStaticData :=
      (FACTION_DATA factionKey).bind (fun fd => fd.buildingsTab trainingBuilding.bldgType)
    match unitStaticData with
    | none => st
    | some usd =>
      if trainingBuilding.isTraining ∨
         (buildingStaticData.bind (fun s => s.trains)) ≠ some unitType then st
      else
        let currentResWood := if factionKey = st.p1FactionKey then st.p1Wood else st.p2Wood
        let currentResCoal := if factionKey = st.p1FactionKey then st.p1Coal else st.p2Coal
        let currentFactionFood :=
          if factionKey = st.p1FactionKey then st.p1CurrentFood else st.p2CurrentFood
        let currentFactionFoodCap :=
          if factionKey = st.p1FactionKey then st.p1FoodCapacity else st.p2FoodCapacity
        if currentResWood < usd.costWood ∨ currentResCoal < usd.costCoal then st
        else if currentFactionFood + usd.foodCost > currentFactionFoodCap then st
        else
          let st :=
            if factionKey = st.p1FactionKey then
              { st with p1Wood := st.p1Wood - usd.costWood, p1Coal := st.p1Coal - usd.costCoal }
            else
              { st with p2Wood := st.p2Wood - usd.costWood, p2Coal := st.p2Coal - usd.costCoal }
          let st := updateResourceDisplay st
          updB st ba (fun b =>
            { b with isTraining := true, trainingUnitType := some unitType,
                     trainingProgress := 0, trainingTotalTime := usd.trainTime })

/-- `completeAnyUnitTraining(buildingData)` (lines 2406-2440).  The
trigonometric `getSpawnPosition` is abstracted as the `spawnPos` argument;
no modelled observable depends on the spawn coordinates. -/
def completeAnyUnitTraining (st : GameState) (ba : Nat) (spawnPos : Pt) : GameState :=
  match lookupB st ba with
  | none => st
  | some buildingData =>
    match buildingData.trainingUnitType with
    | none => st
    | some unitTypeToSpawn =>
      let factionKey := buildingData.faction
      let created := createUnit st unitTypeToSpawn spawnPos factionKey
      let st := created.1
      let st :=
        match created.2 with
        | some na =>
          if factionKey = st.p2FactionKey ∨
             (factionKey = st.p1FactionKey ∧ st.gameMode = GMode.ai_vs_ai) then
            match lookupU st na with
            | some newUnit =>
              let oppAlive :=
                match st.opponentBase >>= lookupB st with
                | some ob => decide (ob.hp > 0)
                | none => false
              if (newUnit.unitType = UTy.soldier ∨ newUnit.unitType = UTy.archer) ∧ oppAlive = true then
                match st.opponentBase >>= lookupB st with
                | some ob =>
                  issueCommand st (some na)
                    ⟨UState.moving_to_attack, some ⟨ob.box.centerX, ob.box.centerY⟩,
                     ob.elem, none, none⟩ true
                | none => st
              else setUnitState st na UState.idle
            | none => st
          else st
        | none => st
      let st := updB st ba (fun b =>
        { b with isTraining := false, trainingUnitType := none,
                 trainingProgress := 0, trainingTotalTime := 0 })
      updateResourceDisplay st

/-- The training segment of the per-building update in `gameLoop`
(lines 2879-2891) for the building at address `a`. -/
def bldgTrainingStep (st : GameState) (a : Nat) (deltaTime : ℚ) (spawnPos : Pt) : GameState :=
  match lookupB st a with
  | none => st
  | some bldg =>
    if ¬bldg.isConstructing ∧ bldg.isTraining ∧ bldg.trainingTotalTime > 0 then
      let st := updB st a (fun v => { v with trainingProgress := v.trainingProgress + deltaTime })
      if bldg.trainingProgress + deltaTime ≥ bldg.trainingTotalTime then
        completeAnyUnitTraining st a spawnPos
      else st
    else st

-- AI controller (main.js lines 2497-2561, 2622-2717).

/-- `aiCanAffordGeneric(factionKey, itemType, isUnit, woodRes, coalRes,
foodRes, foodCap)` (lines 2497-2511); the `Sum` distinguishes the
unit-table and building-table lookups selected by `isUnit`. -/
def aiCanAffordGeneric (factionKey : FKey) (itemType : Sum UTy BTy)
    (woodRes coalRes foodRes foodCap : Int) : Bool :=
  match FACTION_DATA factionKey with
  | none => false
  | some fd =>
    match itemType with
    | Sum.inl u =>
      match fd.unitsTab u with
      | none => false
      | some s =>
        if woodRes < s.costWood ∨ coalRes < s.costCoal then false
        else if s.foodCost = 0 then true
        else decide (¬(foodRes + s.foodCost > foodCap))
    | Sum.inr b =>
      match fd.buildingsTab b with
      | none => false
      | some s => decide (¬(woodRes < s.costWood ∨ coalRes < s.costCoal))

/-- `aiStartConstructionGeneric(factionKey, type, box, assignedWorker)`
(lines 2513-2523): deducts the cost and creates the construction site. -/
def aiStartConstructionGeneric (st : GameState) (factionKey : FKey) (btype : BTy)
    (box : Box) (assignedWorker : Option Nat) : GameState × Option Nat :=
  let cost :=
    match FACTION_DATA factionKey with
    | some fd =>
      match fd.buildingsTab btype with
      | some s => (s.costWood, s.costCoal)
      | none => (0, 0)
    | none => (0, 0)
  let st :=
    if factionKey = st.p1FactionKey then
      { st with p1Wood := st.p1Wood - cost.1, p1Coal := st.p1Coal - cost.2 }
    else
      { st with p2Wood := st.p2Wood - cost.1, p2Coal := st.p2Coal - cost.2 }
  createConstructionSite st btype box factionKey assignedWorker

/-- The box a placement candidate centre `p` would occupy (lines 2543-2547). -/
def candidateBox (p : Pt) (w h : ℚ) : Box :=
  ⟨p.x - w / 2, p.y - h / 2, p.x + w / 2, p.y + h / 2, w, h, p.x, p.y⟩

/-- The world-bounds and overlap rejection tests of one placement attempt
(lines 2549-2553). -/
def placementValid (st : GameState) (potentialBox : Box) : Bool :=
  if potentialBox.xMin < 0 ∨ potentialBox.xMax > st.worldW ∨
     potentialBox.yMin < 0 ∨ potentialBox.yMax > st.worldH then false
  else
    let overlaps :=
      (resArr st).any (fun r =>
        r.elemConnected && checkAABBOverlap potentialBox r.box COLLISION_PADDING) ||
      (bldgsArr st).any (fun b =>
        b.elem.isSome && checkAABBOverlap potentialBox b.box COLLISION_PADDING) ||
      (consArr st).any (fun c =>
        c.elem.isSome && checkAABBOverlap potentialBox c.box COLLISION_PADDING)
    !overlaps

/-- `aiTryBuildGeneric(factionKey, factionBaseData, buildingType,
builderUnit)` (lines 2525-2561).  The source draws up to `MAX_ATTEMPTS = 50`
random candidate centres in an annulus around the base (`Math.random`,
`Math.cos`, `Math.sin`); that pseudo-random generation is abstracted as the
`cands` stream of attempted centres, of which at most 50 are consumed.  The
first candidate passing the bounds/overlap tests is committed. -/
def aiTryBuildGeneric (st : GameState) (factionKey : FKey) (baseRef : Option Nat)
    (buildingType : BTy) (builderRef : Option Nat) (cands : List Pt) : GameState × Bool :=
  match baseRef >>= lookupB st, builderRef >>= lookupU st with
  | some _, some builderUnit =>
    if ¬builderUnit.canBuild then (st, false)
    else
      match (FACTION_DATA factionKey).bind (fun fd => fd.buildingsTab buildingType) with
      | none => (st, false)
      | some buildingStaticData =>
        match (cands.take 50).find? (fun p =>
            placementValid st (candidateBox p buildingStaticData.sizeW buildingStaticData.sizeH)) with
        | some p =>
          ((aiStartConstructionGeneric st factionKey buildingType
             (candidateBox p buildingStaticData.sizeW buildingStaticData.sizeH)
             builderRef).1, true)
        | none => (st, false)
  | _, _ => (st, false)

/-- `units.filter(u => u.faction === key && u.hp > 0)` (line 2646). -/
def aiUnitsOf (st : GameState) (key : FKey) : List UnitE :=
  (unitsArr st).filter (fun u => decide (u.faction = key) && decide (u.hp > 0))

/-- `aiUnits.filter(u => u.unitType === t)` (lines 2647-2649). -/
def aiUnitsOfType (st : GameState) (key : FKey) (t : UTy) : List UnitE :=
  (aiUnitsOf st key).filter (fun u => decide (u.unitType = t))

/-- The completed-building filters of `updateSingleAI` (lines 2651-2655). -/
def aiOwnBldgs (st : GameState) (key : FKey) (t : BTy) : List BldgE :=
  (bldgsArr st).filter (fun b =>
    decide (b.faction = key) && decide (b.bldgType = t) && !b.isConstructing && decide (b.hp > 0))

/-- The `constructions.some(...)` in-progress tests (lines 2659-2662). -/
def aiIsBuilding (st : GameState) (key : FKey) (t : BTy) : Bool :=
  (consArr st).any (fun c => decide (c.faction = key) && decide (c.bldgType = t))

/-- `aiWorkers.filter(w => w.state === 'idle' && !w.ai_tasked &&
!w.constructionId)` (line 2670). -/
def availableBuildersOf (st : GameState) (key : FKey) : List UnitE :=
  (aiUnitsOfType st key UTy.worker).filter (fun w =>
    decide (w.state = UState.idle) && !w.ai_tasked && w.constructionId.isNone)

/-- The worker-training branch condition of `updateSingleAI` (lines 2664-2668),
evaluated on the pass-start snapshot. -/
def aiTrainsWorkerThisPass (st : GameState) (key : FKey) : Bool :=
  match (aiOwnBldgs st key BTy.base).head? with
  | some base0 =>
    !base0.isTraining &&
    decide ((aiUnitsOfType st key UTy.worker).length < AI_TARGET_WORKERS) &&
    aiCanAffordGeneric key (Sum.inl UTy.worker)
      (if key = st.p1FactionKey then st.p1Wood else st.p2Wood)
      (if key = st.p1FactionKey then st.p1Coal else st.p2Coal)
      (calculateCurrentFood st key) (calculateFoodCapacity st key)
  | none => false

/-- The combat-unit production and mass-attack tail of `updateSingleAI`
(lines 2699-2716). -/
def updateSingleAICombat (st : GameState) (key : FKey)
    (currentAIWood currentAICoal currentAIFood currentAIFoodCap : Int)
    (enemyAIBaseRef : Option Nat) (aiUnits aiSoldiers aiArchers : List UnitE)
    (aiOwnBarracks aiOwnArcheryRanges : List BldgE) : GameState :=
  let soldierCond : Bool :=
    match aiOwnBarracks.head? with
    | some br =>
      (match lookupB st br.addr with
       | some br2 => !br2.isTraining
       | none => false) &&
      decide (aiSoldiers.length < AI_TARGET_SOLDIERS) &&
      aiCanAffordGeneric key (Sum.inl UTy.soldier)
        currentAIWood currentAICoal currentAIFood currentAIFoodCap
    | none => false
  let archerCond : Bool :=
    match aiOwnArcheryRanges.head? with
    | some ar =>
      (match lookupB st ar.addr with
       | some ar2 => !ar2.isTraining
       | none => false) &&
      decide (aiArchers.length < AI_TARGET_ARCHERS) &&
      aiCanAffordGeneric key (Sum.inl UTy.archer)
        currentAIWood currentAICoal currentAIFood currentAIFoodCap
    | none => false
  let st :=
    if soldierCond then
      match aiOwnBarracks.head? with
      | some br => trainUnit st UTy.soldier br.addr
      | none => st
    else if archerCond then
      match aiOwnArcheryRanges.head? with
      | some ar => trainUnit st UTy.archer ar.addr
      | none => st
    else st
  let idleCombatUnits := aiUnits.filterMap (fun u0 =>
    match lookupU st u0.addr with
    | some u =>
      if (u.unitType = UTy.soldier ∨ u.unitType = UTy.archer) ∧
         u.state = UState.idle ∧ ¬u.ai_tasked then some u else none
    | none => none)
  if idleCombatUnits.length > 2 then
    match enemyAIBaseRef >>= lookupB st with
    | some enemyAIBase =>
      if enemyAIBase.hp > 0 then
        idleCombatUnits.foldl
          (fun s u =>
            issueCommand s (some u.addr)
              ⟨UState.moving_to_attack,
               some ⟨enemyAIBase.box.centerX, enemyAIBase.box.centerY⟩,
               enemyAIBase.elem, none, none⟩ true)
          st
      else st
    | none => st
  else st

/-- The construction / harvesting middle section of `updateSingleAI`
(lines 2670-2697): runs when the worker-training branch was not taken, then
falls through to `updateSingleAICombat` unless a construction was started
(`if (builtSomething) return`). -/
def updateSingleAIAfterWorkerTraining (st0 : GameState) (key : FKey) (cands : List Pt)
    (currentAIWood currentAICoal currentAIFood currentAIFoodCap : Int)
    (currentAIBase : BldgE) (enemyAIBaseRef : Option Nat)
    (aiUnits aiWorkers aiSoldiers aiArchers : List UnitE)
    (aiOwnBarracks aiOwnArcheryRanges : List BldgE)
    (aiOwnFarmsCount aiOwnGuardTowersCount : Nat)
    (needsFood isBuildingFarm isBuildingBarracks isBuildingArchery isBuildingGuardTower : Bool) :
    GameState :=
  let availableBuilders := availableBuildersOf st0 key
  match availableBuilders.head? with
  | none =>
    updateSingleAICombat st0 key currentAIWood currentAICoal currentAIFood currentAIFoodCap
      enemyAIBaseRef aiUnits aiSoldiers aiArchers aiOwnBarracks aiOwnArcheryRanges
  | some builder =>
    let farmTarget : Int :=
      ⌈(((aiUnits.foldl (fun sum u => sum + u.foodCost) 0 : Int) + 5 : ℚ) /
        (STARTING_FOOD_CAP : ℚ))⌉
    let tryRes : GameState × Bool :=
      if needsFood && !isBuildingFarm && decide ((aiOwnFarmsCount : Int) < farmTarget) &&
         aiCanAffordGeneric key (Sum.inr BTy.farm)
           currentAIWood currentAICoal currentAIFood currentAIFoodCap then
        aiTryBuildGeneric st0 key (some currentAIBase.addr) BTy.farm (some builder.addr) cands
      else if decide (aiOwnBarracks.length = 0) && !isBuildingBarracks &&
              decide (aiWorkers.length ≥ 2) &&
              aiCanAffordGeneric key (Sum.inr BTy.barracks)
                currentAIWood currentAICoal currentAIFood currentAIFoodCap then
        aiTryBuildGeneric st0 key (some currentAIBase.addr) BTy.barracks (some builder.addr) cands
      else if decide (aiOwnBarracks.length > 0) && decide (aiOwnArcheryRanges.length = 0) &&
              !isBuildingArchery && decide (aiWorkers.length ≥ 3) &&
              aiCanAffordGeneric key (Sum.inr BTy.archer_trainer)
                currentAIWood currentAICoal currentAIFood currentAIFoodCap then
        aiTryBuildGeneric st0 key (some currentAIBase.addr) BTy.archer_trainer
          (some builder.addr) cands
      else if decide (aiOwnBarracks.length > 0) &&
              decide (aiOwnGuardTowersCount < AI_TARGET_GUARD_TOWERS) &&
              !isBuildingGuardTower && decide (aiWorkers.length ≥ 3) &&
              decide (currentAIWood > 50) && decide (currentAICoal > 40) &&
              aiCanAffordGeneric key (Sum.inr BTy.guard_tower)
                currentAIWood currentAICoal currentAIFood currentAIFoodCap then
        aiTryBuildGeneric st0 key (some currentAIBase.addr) BTy.guard_tower
          (some builder.addr) cands
      else (st0, false)
    let st := tryRes.1
    let builtSomething := tryRes.2
    if builtSomething then st
    else
      let st :=
        match lookupU st builder.addr with
        | some builder2 =>
          if builder2.state = UState.idle then
            let preferredType :=
              if (currentAIWood : ℚ) < (currentAICoal : ℚ) * (12/10) ∨
                 currentAIWood < 40 + (aiWorkers.length : Int) * 5 then RCl.tree
              else RCl.mine
            let preferredType :=
              if currentAICoal < 25 + (aiWorkers.length : Int) * 3 ∧ currentAIWood > 50 then
                RCl.mine
              else preferredType
            let targetNode := findNearestResource st builder2 preferredType
            let targetNode :=
              match targetNode with
              | some n => some n
              | none =>
                findNearestResource st builder2
                  (if preferredType = RCl.tree then RCl.mine else RCl.tree)
            match targetNode with
            | some n => (findAndTargetNearestResource st builder.addr n.rtype (some n) true).1
            | none => st
          else st
        | none => st
      updateSingleAICombat st key currentAIWood currentAICoal currentAIFood currentAIFoodCap
        enemyAIBaseRef aiUnits aiSoldiers aiArchers aiOwnBarracks aiOwnArcheryRanges

/-- The throttled body of `updateSingleAI(currentAIFactionKey)`
(lines 2633-2716), i.e. everything after the update-interval gate. -/
def updateSingleAIBody (st0 : GameState) (key : FKey) (cands : List Pt) : GameState :=
  let isP1AI := key = st0.p1FactionKey
  let currentAIWood := if isP1AI then st0.p1Wood else st0.p2Wood
  let currentAICoal := if isP1AI then st0.p1Coal else st0.p2Coal
  let currentAIFood := calculateCurrentFood st0 key
  let currentAIFoodCap := calculateFoodCapacity st0 key
  let currentAIBaseRef := if isP1AI then st0.playerBase else st0.opponentBase
  let enemyAIBaseRef := if isP1AI then st0.opponentBase else st0.playerBase
  match currentAIBaseRef >>= lookupB st0 with
  | none => st0
  | some currentAIBase =>
    if currentAIBase.hp ≤ 0 then st0
    else
      let aiUnits := aiUnitsOf st0 key
      let aiWorkers := aiUnitsOfType st0 key UTy.worker
      let aiSoldiers := aiUnitsOfType st0 key UTy.soldier
      let aiArchers := aiUnitsOfType st0 key UTy.archer
      let aiOwnBarracks := aiOwnBldgs st0 key BTy.barracks
      let aiOwnArcheryRanges := aiOwnBldgs st0 key BTy.archer_trainer
      let aiOwnFarmsCount := (aiOwnBldgs st0 key BTy.farm).length
      let aiOwnGuardTowersCount := (aiOwnBldgs st0 key BTy.guard_tower).length
      let needsFood : Bool := decide (currentAIFoodCap - currentAIFood <
        (if aiWorkers.length > 1 then (3 : Int) else 2))
      if aiTrainsWorkerThisPass st0 key then
        match (aiOwnBldgs st0 key BTy.base).head? with
        | some base0 => trainUnit st0 UTy.worker base0.addr
        | none => st0
      else
        updateSingleAIAfterWorkerTraining st0 key cands currentAIWood currentAICoal
          currentAIFood currentAIFoodCap currentAIBase enemyAIBaseRef aiUnits aiWorkers
          aiSoldiers aiArchers aiOwnBarracks aiOwnArcheryRanges aiOwnFarmsCount
          aiOwnGuardTowersCount needsFood (aiIsBuilding st0 key BTy.farm)
          (aiIsBuilding st0 key BTy.barracks) (aiIsBuilding st0 key BTy.archer_trainer)
          (aiIsBuilding st0 key BTy.guard_tower)

/-- `updateSingleAI(currentAIFactionKey)` with its update-interval gate
(lines 2622-2631).  `factionAiUpdateCounters` is keyed by the faction key;
the two call sites only ever pass `p1FactionKey` / `p2FactionKey`, so the
per-key counters are held as the two fields `aiCounterP1` / `aiCounterP2`. -/
def updateSingleAI (st : GameState) (currentAIFactionKey : FKey) (cands : List Pt) :
    GameState :=
  let isP1 := currentAIFactionKey = st.p1FactionKey
  let c := (if isP1 then st.aiCounterP1 else st.aiCounterP2) + 1
  if c < AI_UPDATE_INTERVAL ∨ st.gameOver then
    if isP1 then { st with aiCounterP1 := c } else { st with aiCounterP2 := c }
  else
    let st := if isP1 then { st with aiCounterP1 := 0 } else { st with aiCounterP2 := 0 }
    updateSingleAIBody st currentAIFactionKey cands

-- Concrete states for witnesses and counterexamples.

/-- A box given its top-left corner and size. -/
def mkBox (x y w h : ℚ) : Box := ⟨x, y, x + w, y + h, w, h, x + w / 2, y + h / 2⟩

/-- A freshly spawned-looking unit at a given address. -/
def mkUnit (addr idn elem : Nat) (fk : FKey) (t : UTy) (x y hp mhp : ℚ) : UnitE :=
  { addr := addr, id := EntId.unitId idn, elem := elem, elemConnected := true,
    faction := fk, unitType := t, worldX := x, worldY := y,
    target := none, targetElement := none, state := UState.idle,
    resourceType := none, harvestTimer := none, lastHarvestedNodeId := none,
    constructionId := none, ai_tasked := false, hp := hp, maxHp := mhp,
    foodCost := (if t = UTy.worker then 1 else 2), canBuild := (t = UTy.worker),
    attackRange := 0, attackDamage := 0, attackSpeed := 1000, lastAttackTime := 0,
    speed := UNIT_SPEED, preferredResourceType := none }

/-- A completed building at a given address. -/
def mkBldg (addr idn : Nat) (elem : Option Nat) (fk : FKey) (t : BTy) (bx : Box)
    (hp mhp : ℚ) (isBase : Bool) (pf : Int) : BldgE :=
  { addr := addr, id := EntId.bldgId idn, bldgType := t, elem := elem,
    elemConnected := elem.isSome, box := bx, isConstructing := false, isBase := isBase,
    faction := fk, hp := hp, maxHp := mhp, provides_food := pf, isTraining := false,
    trainingProgress := 0, trainingTotalTime := 0, trainingUnitType := none,
    attackRange := 0, attackDamage := 0, attackSpeed := 0, lastAttackTime := 0,
    assignedWorker := none, progress := 0, buildTime := 0 }

/-- A resource node at a given address. -/
def mkRes (addr idn elem : Nat) (t : RCl) (bx : Box) (health : Int) : ResE :=
  { addr := addr, id := EntId.resId idn, rtype := t, elem := elem,
    elemConnected := true, box := bx, health := health }

/-- The p1 (human) main base of the sample states. -/
def base1 : BldgE := mkBldg 0 0 (some 0) FKey.human BTy.base (mkBox 0 0 180 180) 1500 1500 true 4

/-- The p2 (zombie) main base of the sample states. -/
def base2 : BldgE := mkBldg 1 1 (some 1) FKey.zombie BTy.base (mkBox 2000 0 180 180) 1800 1800 true 4

/-- A small in-game sample state: two bases, one worker per side, one tree and
one mine. -/
def S0 : GameState :=
  { unitPool := [mkUnit 2 0 2 FKey.human UTy.worker 300 300 50 50,
                 mkUnit 3 1 3 FKey.zombie UTy.worker 2100 300 60 60]
    bldgPool := [base1, base2]
    resPool := [mkRes 4 0 4 RCl.tree (mkBox 500 500 100 100) 1,
                mkRes 5 1 5 RCl.mine (mkBox 900 500 140 140) 30]
    units := [2, 3]
    buildings := [0, 1]
    constructions := []
    resources := [4, 5]
    p1Wood := 350, p1Coal := 250, p2Wood := 350, p2Coal := 250
    p1CurrentFood := 1, p1FoodCapacity := 4, p2CurrentFood := 1, p2FoodCapacity := 4
    unitIdCounter := 2, buildingIdCounter := 2, constructionIdCounter := 0
    allocCounter := 6, elemCounter := 6
    selectedUnit := none, selectedBuilding := none
    gameOver := false, gameInitialized := true, recordedWinner := none
    gameMode := GMode.human_vs_ai
    p1FactionKey := FKey.human, p2FactionKey := FKey.zombie
    playerBase := some 0, opponentBase := some 1
    placingBuildingType := none, placingFarm := false
    pendingMineRemovals := []
    worldW := 6000, worldH := 5000
    aiCounterP1 := 0, aiCounterP2 := 0 }

-- Frame infrastructure: `nonPools st` is the whole state except the unit and
-- building pools, so `nonPools s = nonPools t` bundles preservation of every
-- scalar field and every entity array.

/-- A `GameState` with the two mutated object pools erased; equality of
`nonPools` projections expresses that an operation only touched unit or
building objects. -/
def nonPools (st : GameState) : GameState := { st with unitPool := [], bldgPool := [] }

@[simp] lemma nonPools_updU (st : GameState) (a : Nat) (f : UnitE → UnitE) :
    nonPools (updU st a f) = nonPools st := rfl

@[simp] lemma nonPools_updB (st : GameState) (a : Nat) (f : BldgE → BldgE) :
    nonPools (updB st a f) = nonPools st := rfl

@[simp] lemma lookupU_updB (st : GameState) (a : Nat) (f : BldgE → BldgE) (b : Nat) :
    lookupU (updB st a f) b = lookupU st b := rfl

@[simp] lemma lookupB_updU (st : GameState) (a : Nat) (f : UnitE → UnitE) (b : Nat) :
    lookupB (updU st a f) b = lookupB st b := rfl

@[simp] lemma lookupR_updU (st : GameState) (a : Nat) (f : UnitE → UnitE) (b : Nat) :
    lookupR (updU st a f) b = lookupR st b := rfl

@[simp] lemma lookupR_updB (st : GameState) (a : Nat) (f : BldgE → BldgE) (b : Nat) :
    lookupR (updB st a f) b = lookupR st b := rfl

/-- The fields of a unit that no state-machine transition ever writes
(identity, statics, position, hit points): two units with equal `unitCore`
agree on all of them. -/
def unitCore (u : UnitE) : UnitE :=
  { u with state := UState.idle, target := none, targetElement := none,
           lastHarvestedNodeId := none, constructionId := none, ai_tasked := false,
           harvestTimer := none, lastAttackTime := 0, resourceType := none,
           preferredResourceType := none }

/-- A building record minus its `assignedWorker` field (the only building
field the unit state machine writes). -/
def bldgCore (b : BldgE) : BldgE := { b with assignedWorker := none }

lemma lookupU_addr {st : GameState} {b : Nat} {u : UnitE} (h : lookupU st b = some u) :
    u.addr = b := by
  have := List.find?_some h
  simpa using this

lemma lookupB_addr {st : GameState} {b : Nat} {x : BldgE} (h : lookupB st b = some x) :
    x.addr = b := by
  have := List.find?_some h
  simpa using this

lemma lookupR_addr {st : GameState} {b : Nat} {x : ResE} (h : lookupR st b = some x) :
    x.addr = b := by
  have := List.find?_some h
  simpa using this

lemma lookupU_updU (st : GameState) (a : Nat) (f : UnitE → UnitE) (b : Nat)
    (hf : ∀ u, (f u).addr = u.addr) :
    lookupU (updU st a f) b =
      (lookupU st b).map (fun u => if u.addr = a then f u else u) := by
  unfold lookupU updU
  have hp : ((fun u => decide (u.addr = b)) ∘ (fun u => if u.addr = a then f u else u)) =
      (fun u => decide (u.addr = b)) := by
    funext u
    by_cases h : u.addr = a <;> simp [h, hf]
  rw [List.find?_map, hp]

lemma lookupB_updB (st : GameState) (a : Nat) (f : BldgE → BldgE) (b : Nat)
    (hf : ∀ x, (f x).addr = x.addr) :
    lookupB (updB st a f) b =
      (lookupB st b).map (fun x => if x.addr = a then f x else x) := by
  unfold lookupB updB
  have hp : ((fun x => decide (x.addr = b)) ∘ (fun x => if x.addr = a then f x else x)) =
      (fun x => decide (x.addr = b)) := by
    funext x
    by_cases h : x.addr = a <;> simp [h, hf]
  rw [List.find?_map, hp]

lemma lookupU_updU_ne (st : GameState) (a : Nat) (f : UnitE → UnitE) (b : Nat)
    (hf : ∀ u, (f u).addr = u.addr) (hab : b ≠ a) :
    lookupU (updU st a f) b = lookupU st b := by
  rw [lookupU_updU st a f b hf]
  cases h : lookupU st b with
  | none => rfl
  | some u => simp [lookupU_addr h, hab]

lemma lookupB_updB_ne (st : GameState) (a : Nat) (f : BldgE → BldgE) (b : Nat)
    (hf : ∀ x, (f x).addr = x.addr) (hab : b ≠ a) :
    lookupB (updB st a f) b = lookupB st b := by
  rw [lookupB_updB st a f b hf]
  cases h : lookupB st b with
  | none => rfl
  | some x => simp [lookupB_addr h, hab]

lemma map_unitCore_updU (st : GameState) (a : Nat) (f : UnitE → UnitE) (b : Nat)
    (hf : ∀ u, unitCore (f u) = unitCore u) (ha : ∀ u, (f u).addr = u.addr) :
    (lookupU (updU st a f) b).map unitCore = (lookupU st b).map unitCore := by
  rw [lookupU_updU st a f b ha]
  cases lookupU st b with
  | none => rfl
  | some u => by_cases h : u.addr = a <;> simp [h, hf]

lemma map_bldgCore_updB (st : GameState) (a : Nat) (f : BldgE → BldgE) (b : Nat)
    (hf : ∀ x, bldgCore (f x) = bldgCore x) (ha : ∀ x, (f x).addr = x.addr) :
    (lookupB (updB st a f) b).map bldgCore = (lookupB st b).map bldgCore := by
  rw [lookupB_updB st a f b ha]
  cases lookupB st b with
  | none => rfl
  | some x => by_cases h : x.addr = a <;> simp [h, hf]

-- setUnitState frame lemmas

lemma setUnitState_nonPools (st : GameState) (a : Nat) (ns : UState) :
    nonPools (setUnitState st a ns) = nonPools st := by
  simp only [setUnitState]
  repeat' split
  all_goals rfl

lemma setUnitState_unitCore (st : GameState) (a : Nat) (ns : UState) (b : Nat) :
    (lookupU (setUnitState st a ns) b).map unitCore = (lookupU st b).map unitCore := by
  simp only [setUnitState]
  repeat' split
  all_goals (repeat first | rw [map_unitCore_updU] | simp only [lookupU_updB])
  all_goals try (intro u; rfl)

lemma setUnitState_bldgCore (st : GameState) (a : Nat) (ns : UState) (b : Nat) :
    (lookupB (setUnitState st a ns) b).map bldgCore = (lookupB st b).map bldgCore := by
  simp only [setUnitState]
  repeat' split
  all_goals (repeat first | rw [map_bldgCore_updB] | simp only [lookupB_updU])
  all_goals try (intro x; rfl)

lemma setUnitState_lookupU_ne (st : GameState) (a : Nat) (ns : UState) (b : Nat)
    (hab : b ≠ a) :
    lookupU (setUnitState st a ns) b = lookupU st b := by
  simp only [setUnitState]
  repeat' split
  all_goals (repeat first | rw [lookupU_updU_ne _ _ _ _ _ hab] |
    simp only [lookupU_updB] | split)
  all_goals try intro u
  all_goals first | rfl | trivial

lemma setUnitState_lookupR (st : GameState) (a : Nat) (ns : UState) (b : Nat) :
    lookupR (setUnitState st a ns) b = lookupR st b := by
  simp only [setUnitState]
  repeat' split
  all_goals rfl

set_option maxHeartbeats 2000000 in
lemma setUnitState_self_state (st : GameState) (a : Nat) (ns : UState) (u : UnitE)
    (h : lookupU st a = some u) :
    ∃ v, lookupU (setUnitState st a ns) a = some v ∧ v.state = ns ∧
      unitCore v = unitCore u ∧
      (ns ≠ UState.idle → ns ≠ UState.attacking → v.target = u.target) ∧
      (u.harvestTimer = none → v.harvestTimer = none) := by
  have hu : u.addr = a := lookupU_addr h
  simp only [setUnitState, h]
  repeat' split
  all_goals try simp (disch := intros; rfl) only
    [lookupU_updU, lookupU_updB, h, hu, Option.map_some, reduceIte]
  all_goals refine ⟨_, rfl, ?_, ?_, ?_, ?_⟩
  all_goals first
    | rfl
    | (intro h1; exact h1)
    | (intro h1 h2; rfl)
    | (intro h1 h2; simp_all)
    | simp_all [unitCore]

set_option maxHeartbeats 2000000 in
lemma issueCommandPre_self (st : GameState) (ua : Nat) (u : UnitE) (command : Command)
    (t : Bool) (h : lookupU st ua = some u) :
    ∃ w, lookupU (issueCommandPre st ua command t) ua = some w ∧
      w.state = u.state ∧ w.target = command.target ∧
      w.targetElement = command.targetElement ∧ w.harvestTimer = none ∧
      unitCore w = unitCore u := by
  have hu : u.addr = ua := lookupU_addr h
  simp only [issueCommandPre, h]
  repeat' split
  all_goals try simp (disch := intros; rfl) only
    [lookupU_updU, lookupU_updB, h, hu, Option.map_some, reduceIte]
  all_goals refine ⟨_, rfl, ?_, ?_, ?_, ?_, ?_⟩
  all_goals simp_all [unitCore]

lemma issueCommandPre_nonPools (st : GameState) (ua : Nat) (command : Command) (t : Bool) :
    nonPools (issueCommandPre st ua command t) = nonPools st := by
  simp only [issueCommandPre]
  repeat' split
  all_goals rfl

lemma issueCommandPre_unitCore (st : GameState) (ua : Nat) (command : Command) (t : Bool)
    (b : Nat) :
    (lookupU (issueCommandPre st ua command t) b).map unitCore =
      (lookupU st b).map unitCore := by
  simp only [issueCommandPre]
  repeat' split
  all_goals (repeat first | rw [map_unitCore_updU] | simp only [lookupU_updB] | split)
  all_goals try intro u
  all_goals first | rfl | trivial

lemma issueCommandPre_bldgCore (st : GameState) (ua : Nat) (command : Command) (t : Bool)
    (b : Nat) :
    (lookupB (issueCommandPre st ua command t) b).map bldgCore =
      (lookupB st b).map bldgCore := by
  simp only [issueCommandPre]
  repeat' split
  all_goals (repeat first | rw [map_bldgCore_updB] | simp only [lookupB_updU] | split)
  all_goals try intro x
  all_goals first | rfl | trivial

lemma issueCommandPre_lookupU_ne (st : GameState) (ua : Nat) (command : Command) (t : Bool)
    (b : Nat) (hab : b ≠ ua) :
    lookupU (issueCommandPre st ua command t) b = lookupU st b := by
  simp only [issueCommandPre]
  repeat' split
  all_goals (repeat first | rw [lookupU_updU_ne _ _ _ _ _ hab] |
    simp only [lookupU_updB] | split)
  all_goals try intro u
  all_goals first | rfl | trivial

lemma issueCommand_nonPools (st : GameState) (uref : Option Nat) (command : Command)
    (t : Bool) :
    nonPools (issueCommand st uref command t) = nonPools st := by
  simp only [issueCommand]
  repeat' split
  all_goals simp [setUnitState_nonPools, issueCommandPre_nonPools]

lemma issueCommand_unitCore (st : GameState) (uref : Option Nat) (command : Command)
    (t : Bool) (b : Nat) :
    (lookupU (issueCommand st uref command t) b).map unitCore =
      (lookupU st b).map unitCore := by
  simp only [issueCommand]
  repeat' split
  all_goals try rfl
  all_goals
    (repeat first
      | rw [map_unitCore_updU]
      | rw [setUnitState_unitCore]
      | rw [issueCommandPre_unitCore])
  all_goals try intro u
  all_goals first | rfl | trivial

lemma issueCommand_bldgCore (st : GameState) (uref : Option Nat) (command : Command)
    (t : Bool) (b : Nat) :
    (lookupB (issueCommand st uref command t) b).map bldgCore =
      (lookupB st b).map bldgCore := by
  simp only [issueCommand]
  repeat' split
  all_goals try rfl
  all_goals
    (repeat first
      | simp only [lookupB_updU]
      | rw [setUnitState_bldgCore]
      | rw [issueCommandPre_bldgCore])
  all_goals first | rfl | trivial

lemma issueCommand_lookupU_ne (st : GameState) (ua : Nat) (command : Command)
    (t : Bool) (b : Nat) (hab : b ≠ ua) :
    lookupU (issueCommand st (some ua) command t) b = lookupU st b := by
  simp only [issueCommand]
  repeat' split
  all_goals try rfl
  all_goals
    (repeat first
      | rw [lookupU_updU_ne _ _ _ _ _ hab]
      | rw [setUnitState_lookupU_ne _ _ _ _ hab]
      | rw [issueCommandPre_lookupU_ne _ _ _ _ _ hab])
  all_goals try intro u
  all_goals first | rfl | trivial

lemma issueCommand_self (st : GameState) (a : Nat) (u : UnitE) (command : Command)
    (triggeredByAI : Bool) (h : lookupU st a = some u) (hhp : 0 < u.hp) :
    ∃ v, lookupU (issueCommand st (some a) command triggeredByAI) a = some v ∧
      v.state = command.state ∧ v.harvestTimer = none ∧ unitCore v = unitCore u ∧
      (command.state ≠ UState.idle → command.state ≠ UState.attacking →
        v.target = command.target) := by
  have hnle : ¬u.hp ≤ 0 := not_le.mpr hhp
  obtain ⟨w, hw, hws, hwt, hwte, hwh, hwc⟩ :=
    issueCommandPre_self st a u command triggeredByAI h
  obtain ⟨v, hv, hvs, hvc, hvt, hvh⟩ :=
    setUnitState_self_state (issueCommandPre st a command triggeredByAI) a command.state w hw
  have hva : v.addr = a := lookupU_addr hv
  have hrw : ∀ s b, lookupU (updU s a (fun v => { v with resourceType := none })) b =
      (lookupU s b).map (fun x => if x.addr = a then { x with resourceType := none } else x) :=
    fun s b => lookupU_updU s a _ b (fun _ => rfl)
  simp only [issueCommand, h, hnle, reduceIte]
  split
  · rw [hrw, hv]
    refine ⟨{ v with resourceType := none }, by simp [hva], ?_, ?_, ?_, ?_⟩
    · simpa using hvs
    · simpa using hvh hwh
    · show unitCore { v with resourceType := none } = unitCore u
      have hx : unitCore { v with resourceType := none } = unitCore v := rfl
      rw [hx, hvc, hwc]
    · intro h1 h2
      show ({ v with resourceType := none } : UnitE).target = command.target
      have hx : ({ v with resourceType := none } : UnitE).target = v.target := rfl
      rw [hx, hvt h1 h2, hwt]
  · exact ⟨v, hv, hvs, hvh hwh, hvc.trans hwc, fun h1 h2 => (hvt h1 h2).trans hwt⟩

-- Entity-view frame: `entitiesOnly st` keeps exactly the pools and the four
-- entity arrays, so `entitiesOnly s = entitiesOnly t` says an operation only
-- touched scalars (selection, economy caches, flags, …).

/-- A `GameState` with every scalar field zeroed: equality of `entitiesOnly`
projections expresses that an operation did not touch the object pools or the
entity arrays. -/
def entitiesOnly (st : GameState) : GameState :=
  { st with
    p1Wood := 0, p1Coal := 0, p2Wood := 0, p2Coal := 0,
    p1CurrentFood := 0, p1FoodCapacity := 0, p2CurrentFood := 0, p2FoodCapacity := 0,
    unitIdCounter := 0, buildingIdCounter := 0, constructionIdCounter := 0,
    allocCounter := 0, elemCounter := 0,
    selectedUnit := none, selectedBuilding := none,
    gameOver := false, gameInitialized := false, recordedWinner := none,
    gameMode := GMode.human_vs_ai,
    p1FactionKey := FKey.human, p2FactionKey := FKey.human,
    playerBase := none, opponentBase := none,
    placingBuildingType := none, placingFarm := false,
    pendingMineRemovals := [],
    worldW := 0, worldH := 0, aiCounterP1 := 0, aiCounterP2 := 0 }

lemma entitiesOnly_updateResourceDisplay (st : GameState) :
    entitiesOnly (updateResourceDisplay st) = entitiesOnly st := rfl

lemma entitiesOnly_cancelPlacement (st : GameState) :
    entitiesOnly (cancelPlacement st) = entitiesOnly st := by
  simp only [cancelPlacement]
  repeat' split
  all_goals rfl

lemma entitiesOnly_deselectAll (st : GameState) :
    entitiesOnly (deselectAll st) = entitiesOnly st := by
  simp only [deselectAll]
  repeat' split
  all_goals try rw [entitiesOnly_cancelPlacement]
  all_goals rfl

lemma entitiesOnly_checkGameOver (st : GameState) :
    entitiesOnly (checkGameOver st).1 = entitiesOnly st := by
  simp only [checkGameOver]
  repeat' split
  all_goals rfl

lemma flags_cancelPlacement (st : GameState) :
    (cancelPlacement st).gameOver = st.gameOver ∧
    (cancelPlacement st).recordedWinner = st.recordedWinner ∧
    (cancelPlacement st).gameInitialized = st.gameInitialized := by
  simp only [cancelPlacement]
  repeat' split
  all_goals exact ⟨rfl, rfl, rfl⟩

lemma flags_deselectAll (st : GameState) :
    (deselectAll st).gameOver = st.gameOver ∧
    (deselectAll st).recordedWinner = st.recordedWinner ∧
    (deselectAll st).gameInitialized = st.gameInitialized := by
  simp only [deselectAll]
  repeat' split
  all_goals try exact ⟨rfl, rfl, rfl⟩
  all_goals
    exact ((flags_cancelPlacement _).1.trans rfl).symm ▸ (flags_cancelPlacement _)

lemma flags_updateResourceDisplay (st : GameState) :
    (updateResourceDisplay st).gameOver = st.gameOver ∧
    (updateResourceDisplay st).recordedWinner = st.recordedWinner ∧
    (updateResourceDisplay st).gameInitialized = st.gameInitialized :=
  ⟨rfl, rfl, rfl⟩

lemma checkGameOver_of_gameOver (st : GameState) (h : st.gameOver = true) :
    checkGameOver st = (st, true) := by
  simp [checkGameOver, h]

-- attackerResetFold frame lemmas by fold induction.

lemma attackerResetStep_nonPools (telem : Option Nat) (s : GameState) (a : Nat) :
    nonPools (attackerResetStep telem s a) = nonPools s := by
  simp only [attackerResetStep]
  repeat' split
  all_goals first | rfl | rw [setUnitState_nonPools]

lemma attackerResetStep_unitCore (telem : Option Nat) (s : GameState) (a b : Nat) :
    (lookupU (attackerResetStep telem s a) b).map unitCore = (lookupU s b).map unitCore := by
  simp only [attackerResetStep]
  repeat' split
  all_goals first | rfl | rw [setUnitState_unitCore]

lemma attackerResetStep_bldgCore (telem : Option Nat) (s : GameState) (a b : Nat) :
    (lookupB (attackerResetStep telem s a) b).map bldgCore = (lookupB s b).map bldgCore := by
  simp only [attackerResetStep]
  repeat' split
  all_goals first | rfl | rw [setUnitState_bldgCore]

lemma foldl_attackerResetStep_nonPools (telem : Option Nat) (l : List Nat) :
    ∀ s : GameState, nonPools (l.foldl (attackerResetStep telem) s) = nonPools s := by
  induction l with
  | nil => intro s; rfl
  | cons a t ih =>
    intro s
    simp only [List.foldl_cons]
    rw [ih, attackerResetStep_nonPools]

lemma attackerResetFold_nonPools (st : GameState) (telem : Option Nat) :
    nonPools (attackerResetFold st telem) = nonPools st :=
  foldl_attackerResetStep_nonPools telem st.units st

lemma foldl_attackerResetStep_unitCore (telem : Option Nat) (l : List Nat) :
    ∀ (s : GameState) (b : Nat),
      (lookupU (l.foldl (attackerResetStep telem) s) b).map unitCore =
        (lookupU s b).map unitCore := by
  induction l with
  | nil => intro s b; rfl
  | cons a t ih =>
    intro s b
    simp only [List.foldl_cons]
    rw [ih, attackerResetStep_unitCore]

lemma attackerResetFold_unitCore (st : GameState) (telem : Option Nat) (b : Nat) :
    (lookupU (attackerResetFold st telem) b).map unitCore = (lookupU st b).map unitCore :=
  foldl_attackerResetStep_unitCore telem st.units st b

lemma foldl_attackerResetStep_bldgCore (telem : Option Nat) (l : List Nat) :
    ∀ (s : GameState) (b : Nat),
      (lookupB (l.foldl (attackerResetStep telem) s) b).map bldgCore =
        (lookupB s b).map bldgCore := by
  induction l with
  | nil => intro s b; rfl
  | cons a t ih =>
    intro s b
    simp only [List.foldl_cons]
    rw [ih, attackerResetStep_bldgCore]

lemma attackerResetFold_bldgCore (st : GameState) (telem : Option Nat) (b : Nat) :
    (lookupB (attackerResetFold st telem) b).map bldgCore = (lookupB st b).map bldgCore :=
  foldl_attackerResetStep_bldgCore telem st.units st b

-- Claim C10

/-- C10: `issueCommand` invoked on a null unit reference, or on a unit whose
hit points are at or below zero, returns the game state completely unchanged:
no field of any unit, no timer, and no assignment anywhere in the state is
modified. -/
theorem c10_issueCommand_null_or_dead_noop :
    (∀ (st : GameState) (command : Command) (t : Bool),
      issueCommand st none command t = st) ∧
    (∀ (st : GameState) (a : Nat) (u : UnitE) (command : Command) (t : Bool),
      lookupU st a = some u → u.hp ≤ 0 →
      issueCommand st (some a) command t = st) := by
  constructor
  · intro st command t
    rfl
  · intro st a u command t h hhp
    simp [issueCommand, h, hhp]

/-- A sample state whose p1 worker (address 2) is dead. -/
def SDead : GameState := updU S0 2 (fun u => { u with hp := 0 })

/-- Witness for C10 at a concrete dead unit and a concrete null reference. -/
theorem c10_witness :
    issueCommand SDead (some 2) ⟨UState.moving, some ⟨1, 2⟩, none, none, none⟩ false = SDead ∧
    issueCommand SDead none ⟨UState.moving, some ⟨1, 2⟩, none, none, none⟩ false = SDead :=
  ⟨c10_issueCommand_null_or_dead_noop.2 SDead 2 _ _ false rfl (by decide),
   c10_issueCommand_null_or_dead_noop.1 SDead _ false⟩

-- Claim C6

/-- C6: issuing any command through `issueCommand` to a (living) unit leaves
its pending harvest timer cancelled, and a harvest-completion callback that
fires while the unit is no longer in state 'harvesting' is a complete no-op
(in particular it credits no resources to any faction's stockpile). -/
theorem c6_harvest_timer_cancellation :
    (∀ (st : GameState) (a : Nat) (u : UnitE) (command : Command) (t : Bool),
      lookupU st a = some u → 0 < u.hp →
      ∃ v, lookupU (issueCommand st (some a) command t) a = some v ∧
        v.harvestTimer = none) ∧
    (∀ (st : GameState) (ua ra : Nat) (u : UnitE),
      lookupU st ua = some u → u.state ≠ UState.harvesting →
      handleHarvestComplete st ua ra = st) := by
  constructor
  · intro st a u command t h hhp
    obtain ⟨v, hv, _, hvh, _, _⟩ := issueCommand_self st a u command t h hhp
    exact ⟨v, hv, hvh⟩
  · intro st ua ra u h hne
    cases hr : lookupR st ra with
    | none => simp [handleHarvestComplete, h, hr, hne]
    | some r => simp [handleHarvestComplete, h, hr, hne]

/-- A sample state whose p1 worker is harvesting the tree with a pending
harvest timer. -/
def STimer : GameState :=
  updU S0 2 (fun u => { u with state := UState.harvesting, harvestTimer := some 4 })

/-- Witness for C6: a concrete command cancels a concrete pending timer, and
a concrete stale callback is a no-op. -/
theorem c6_witness :
    (∃ v, lookupU (issueCommand STimer (some 2)
        ⟨UState.moving, some ⟨1, 2⟩, none, none, none⟩ false) 2 = some v ∧
      v.harvestTimer = none) ∧
    handleHarvestComplete S0 2 4 = S0 :=
  ⟨c6_harvest_timer_cancellation.1 STimer 2 _ _ false rfl (by decide),
   c6_harvest_timer_cancellation.2 S0 2 4 _ rfl (by decide)⟩

-- Claim C7

/-- C7 (amended): a `createUnit` or `createBuilding` call whose requested
type or faction is absent from the static stat table returns null and leaves
the state completely unchanged; a `createConstructionSite` call with a type
absent from the faction's table returns null and leaves everything unchanged
except that the construction ID counter has already been incremented. -/
theorem c7_creation_failure_no_mutation :
    (∀ (st : GameState) (ut : UTy) (pos : Pt) (fk : FKey),
      (FACTION_DATA fk).bind (fun fd => fd.unitsTab ut) = none →
      createUnit st ut pos fk = (st, none)) ∧
    (∀ (st : GameState) (bt : BTy) (box : Box) (fk : FKey) (ib ic : Bool),
      (FACTION_DATA fk).bind (fun fd => fd.buildingsTab bt) = none →
      createBuilding st bt box fk ib ic = (st, none)) ∧
    (∀ (st : GameState) (bt : BTy) (box : Box) (fk : FKey) (w : Option Nat)
      (fd : FactionData),
      FACTION_DATA fk = some fd → fd.buildingsTab bt = none →
      createConstructionSite st bt box fk w =
        ({ st with constructionIdCounter := st.constructionIdCounter + 1 }, none)) := by
  refine ⟨?_, ?_, ?_⟩
  · intro st ut pos fk h
    cases hfd : FACTION_DATA fk with
    | none => simp [createUnit, hfd]
    | some fd =>
      rw [hfd] at h
      simp only [Option.some_bind] at h
      simp [createUnit, hfd, h]
  · intro st bt box fk ib ic h
    cases hfd : FACTION_DATA fk with
    | none => simp [createBuilding, hfd]
    | some fd =>
      rw [hfd] at h
      simp only [Option.some_bind] at h
      simp [createBuilding, hfd, h]
  · intro st bt box fk w fd hfd h
    simp [createConstructionSite, hfd, h]

/-- Counterexample for C7 as frozen: a failed `createConstructionSite` call
(unknown building type) returns null yet has already bumped the construction
ID counter, so "the ID counters … are all unchanged" is false. -/
theorem c7_counterexample :
    (createConstructionSite S0 (BTy.badB 0) (mkBox 600 600 50 50) FKey.human none).2 =
      none ∧
    (createConstructionSite S0 (BTy.badB 0) (mkBox 600 600 50 50)
        FKey.human none).1.constructionIdCounter ≠ S0.constructionIdCounter := by
  constructor
  · rfl
  · decide

/-- Witness for C7 (amended) at concrete failed creations. -/
theorem c7_witness :
    createUnit S0 (UTy.badU 3) ⟨10, 10⟩ FKey.human = (S0, none) ∧
    createBuilding S0 (BTy.badB 3) (mkBox 1 1 5 5) FKey.zombie true false = (S0, none) ∧
    createConstructionSite S0 (BTy.badB 3) (mkBox 1 1 5 5) FKey.zombie (some 2) =
      ({ S0 with constructionIdCounter := S0.constructionIdCounter + 1 }, none) :=
  ⟨c7_creation_failure_no_mutation.1 S0 (UTy.badU 3) ⟨10, 10⟩ FKey.human rfl,
   c7_creation_failure_no_mutation.2.1 S0 (BTy.badB 3) (mkBox 1 1 5 5) FKey.zombie
     true false rfl,
   c7_creation_failure_no_mutation.2.2 S0 (BTy.badB 3) (mkBox 1 1 5 5) FKey.zombie
     (some 2) _ rfl rfl⟩


lemma gameOver_deselectAll (st : GameState) :
    (deselectAll st).gameOver = st.gameOver := (flags_deselectAll st).1

lemma winner_deselectAll (st : GameState) :
    (deselectAll st).recordedWinner = st.recordedWinner := (flags_deselectAll st).2.1

lemma gameOver_attackerResetFold (st : GameState) (t : Option Nat) :
    (attackerResetFold st t).gameOver = st.gameOver := by
  have h := attackerResetFold_nonPools st t
  have h2 := congrArg GameState.gameOver h
  exact h2

lemma winner_attackerResetFold (st : GameState) (t : Option Nat) :
    (attackerResetFold st t).recordedWinner = st.recordedWinner := by
  have h := attackerResetFold_nonPools st t
  have h2 := congrArg GameState.recordedWinner h
  exact h2

lemma gameOver_issueCommand (st : GameState) (uref : Option Nat) (c : Command) (t : Bool) :
    (issueCommand st uref c t).gameOver = st.gameOver := by
  have h := issueCommand_nonPools st uref c t
  have h2 := congrArg GameState.gameOver h
  exact h2

lemma winner_issueCommand (st : GameState) (uref : Option Nat) (c : Command) (t : Bool) :
    (issueCommand st uref c t).recordedWinner = st.recordedWinner := by
  have h := issueCommand_nonPools st uref c t
  have h2 := congrArg GameState.recordedWinner h
  exact h2

lemma gameOver_updateResourceDisplay (st : GameState) :
    (updateResourceDisplay st).gameOver = st.gameOver := rfl

lemma winner_updateResourceDisplay (st : GameState) :
    (updateResourceDisplay st).recordedWinner = st.recordedWinner := rfl

lemma gameOver_setUnitState (st : GameState) (a : Nat) (ns : UState) :
    (setUnitState st a ns).gameOver = st.gameOver := by
  have h := setUnitState_nonPools st a ns
  have h2 := congrArg GameState.gameOver h
  exact h2

lemma winner_setUnitState (st : GameState) (a : Nat) (ns : UState) :
    (setUnitState st a ns).recordedWinner = st.recordedWinner := by
  have h := setUnitState_nonPools st a ns
  have h2 := congrArg GameState.recordedWinner h
  exact h2

set_option maxHeartbeats 1000000 in
lemma deathBookkeeping_flags (st : GameState) (taddr : Nat) (tid : EntId)
    (telem : Option Nat) (hgo : st.gameOver = true) :
    (deathBookkeeping st taddr tid telem).gameOver = true ∧
    (deathBookkeeping st taddr tid telem).recordedWinner = st.recordedWinner := by
  simp only [deathBookkeeping]
  repeat' split
  all_goals constructor
  all_goals
    simp only [gameOver_updateResourceDisplay, winner_updateResourceDisplay,
      gameOver_deselectAll, winner_deselectAll, gameOver_attackerResetFold,
      winner_attackerResetFold, gameOver_setUnitState, winner_setUnitState]
  all_goals try rw [checkGameOver_of_gameOver]
  all_goals
    simp_all only [gameOver_updateResourceDisplay, winner_updateResourceDisplay,
      gameOver_deselectAll, winner_deselectAll, gameOver_attackerResetFold,
      winner_attackerResetFold, gameOver_setUnitState, winner_setUnitState]


set_option maxHeartbeats 4000000 in
lemma dealDamage_flags (st : GameState) (tgt : DTarget) (dmg : ℚ)
    (hgo : st.gameOver = true) :
    (dealDamage st tgt dmg).gameOver = true ∧
    (dealDamage st tgt dmg).recordedWinner = st.recordedWinner := by
  cases tgt with
  | tu a =>
    cases h : lookupU st a with
    | none => simp [dealDamage, h, hgo]
    | some td =>
      by_cases hle : td.hp ≤ 0
      · simp [dealDamage, h, hle, hgo]
      · simp only [dealDamage, h, if_neg hle]
        repeat' split
        all_goals first
          | (exfalso
             obtain ⟨h1, h2, h3, hpos, hrest⟩ := ‹_ ∧ _›
             exact absurd hpos (not_lt.mpr ‹td.hp - dmg ≤ 0›))
          | (refine (deathBookkeeping_flags _ _ _ _ ?_).imp id (fun hx => hx.trans ?_)
             · (repeat rw [gameOver_issueCommand]); exact hgo
             · (repeat rw [winner_issueCommand]); rfl)
          | (constructor
             · (repeat rw [gameOver_issueCommand]); exact hgo
             · (repeat rw [winner_issueCommand]); rfl)
  | tb a =>
    cases h : lookupB st a with
    | none => simp [dealDamage, h, hgo]
    | some td =>
      by_cases hle : td.hp ≤ 0
      · simp [dealDamage, h, hle, hgo]
      · simp only [dealDamage, h, if_neg hle]
        repeat' split
        all_goals first
          | (refine (deathBookkeeping_flags _ _ _ _ ?_).imp id (fun hx => hx.trans ?_)
             · exact hgo
             · rfl)
          | (exact ⟨hgo, rfl⟩)


-- Claim C5

/-- C5: `checkGameOver` records the opponent of the unique base-less faction
as winner (a draw when both bases are gone), is idempotent, and game over is
terminal: once `gameOver` is set (which is exactly when an outcome is
recorded), neither `checkGameOver` nor any `dealDamage` call changes the
recorded standings. -/
lemma checkGameOver_cases (st : GameState) (hgo : st.gameOver = false) :
    (∃ w, checkGameOver st =
      ({ st with gameOver := true, gameInitialized := false,
                 recordedWinner := some w }, true)) ∨
    checkGameOver st = (st, false) := by
  simp only [checkGameOver, hgo, Bool.false_eq_true, if_false]
  split
  · exact Or.inl ⟨_, rfl⟩
  · exact Or.inr rfl

theorem c5_game_over_terminal :
    (∀ st : GameState, st.gameOver = false → st.gameInitialized = true →
      (hasLivingBase st st.p1FactionKey = true → hasLivingBase st st.p2FactionKey = false →
        (checkGameOver st).1.recordedWinner = some (GWinner.winnerKey st.p1FactionKey) ∧
        (checkGameOver st).1.gameOver = true) ∧
      (hasLivingBase st st.p1FactionKey = false → hasLivingBase st st.p2FactionKey = true →
        (checkGameOver st).1.recordedWinner = some (GWinner.winnerKey st.p2FactionKey) ∧
        (checkGameOver st).1.gameOver = true) ∧
      (hasLivingBase st st.p1FactionKey = false → hasLivingBase st st.p2FactionKey = false →
        (checkGameOver st).1.recordedWinner = some GWinner.draw ∧
        (checkGameOver st).1.gameOver = true)) ∧
    (∀ st : GameState, (checkGameOver (checkGameOver st).1).1 = (checkGameOver st).1) ∧
    (∀ st : GameState, st.gameOver = true →
      (checkGameOver st).1 = st ∧
      ∀ (tgt : DTarget) (dmg : ℚ),
        (dealDamage st tgt dmg).recordedWinner = st.recordedWinner ∧
        (dealDamage st tgt dmg).gameOver = true) := by
  refine ⟨?_, ?_, ?_⟩
  · intro st hgo hinit
    refine ⟨?_, ?_, ?_⟩
    · intro hp1 hp2
      simp [checkGameOver, hgo, hinit, hp1, hp2]
    · intro hp1 hp2
      simp [checkGameOver, hgo, hinit, hp1, hp2]
    · intro hp1 hp2
      simp [checkGameOver, hgo, hinit, hp1, hp2]
  · intro st
    by_cases hgo : st.gameOver = true
    · rw [checkGameOver_of_gameOver st hgo, checkGameOver_of_gameOver st hgo]
    · have hgo' : st.gameOver = false := by simpa using hgo
      rcases checkGameOver_cases st hgo' with ⟨w, hw⟩ | hw
      · rw [hw]
        rw [checkGameOver_of_gameOver _ rfl]
      · rw [hw]
        show (checkGameOver st).1 = st
        rw [hw]
  · intro st hgo
    refine ⟨by simp [checkGameOver_of_gameOver st hgo], ?_⟩
    intro tgt dmg
    exact ⟨(dealDamage_flags st tgt dmg hgo).2, (dealDamage_flags st tgt dmg hgo).1⟩

/-- Sample state whose p2 (zombie) base has been destroyed. -/
def SNoP2 : GameState := updB S0 1 (fun b => { b with hp := 0 })

/-- Sample state in which the game is already over with a recorded winner. -/
def SOver : GameState :=
  { S0 with gameOver := true, gameInitialized := false,
            recordedWinner := some (GWinner.winnerKey FKey.human) }

/-- Witness for C5 at concrete states. -/
theorem c5_witness :
    ((checkGameOver SNoP2).1.recordedWinner = some (GWinner.winnerKey FKey.human) ∧
      (checkGameOver SNoP2).1.gameOver = true) ∧
    (checkGameOver (checkGameOver S0).1).1 = (checkGameOver S0).1 ∧
    ((checkGameOver SOver).1 = SOver ∧
      ((dealDamage SOver (DTarget.tu 2) 100).recordedWinner = SOver.recordedWinner ∧
       (dealDamage SOver (DTarget.tu 2) 100).gameOver = true)) :=
  ⟨(c5_game_over_terminal.1 SNoP2 rfl rfl).1 (by decide) (by decide),
   c5_game_over_terminal.2.1 S0,
   (c5_game_over_terminal.2.2 SOver rfl).1,
   (c5_game_over_terminal.2.2 SOver rfl).2 (DTarget.tu 2) 100⟩

end EmojiRTS
